import Mathlib

/-!
Verification development for the `servers` repository (MCP server adapters).

This file gives a shallow embedding of the parts of the repository that the
checked properties are about:

* `src/datagen/src/mcp_server_datagen/synthetic.py` — the synthetic data
  generator (`SyntheticDataGenerator`), embedded via an explicit entropy
  stream (modelling draws from numpy's global RNG), an explicit store of
  generated IDs (modelling `self._generated_ids`), and `Except String`
  results (modelling raised `ValueError`s).
* `src/datagen/src/mcp_server_datagen/server.py` — `DataGenServer` and its
  `call_tool` dispatcher.
* `src/datagen/src/mcp_server_datagen/generators.py` — `DataGenerator`.
* `src/sqlite/src/mcp_server_sqlite/server.py` — `handle_call_tool`.
* `src/time/src/mcp_server_time/server.py` — `TimeServer.convert_time` and
  the time server's `call_tool`.
* `src/fetch/src/mcp_server_fetch/server.py` — the fetch server's
  `call_tool`.

Python values flowing through the data generator are modelled by the
inductive type `Value`; numpy scalar types are distinguished from native
Python ones because `_ensure_json_serializable` branches on exactly that
distinction.  Opaque library output (faker / mimesis strings, float
payloads) is represented by tokens derived from the entropy stream; no
checked property depends on the actual text or float values.
-/

/-- Entropy stream: the sequence of draws taken from numpy's global RNG
(and from faker/mimesis).  Each primitive draw consumes the head. -/
abbrev Ent := Nat → Nat

/-- Head of the entropy stream (the next raw draw). -/
def headE (e : Ent) : Nat := e 0

/-- Tail of the entropy stream (the stream after one draw). -/
def tailE (e : Ent) : Ent := fun n => e (n + 1)

/-- Model of the Python values produced by the data generation pipeline.
`npInt`/`npFloat`/`npBool` are numpy scalars (`np.integer`, `np.floating`,
`np.bool_`); `pyInt`/`pyFloat`/`pyBool`/`pyStr` are native Python values;
`pyDate`/`pyDatetime` are `datetime.date` / `datetime.datetime` objects
(their `String` payload stands for their ISO rendering).  Float payloads
are opaque tokens (`Nat`): no checked property inspects float values. -/
inductive Value where
  | npInt (n : Int)
  | npFloat (payload : Nat)
  | npBool (b : Bool)
  | pyInt (n : Int)
  | pyFloat (payload : Nat)
  | pyBool (b : Bool)
  | pyStr (s : String)
  | pyDate (iso : String)
  | pyDatetime (iso : String)
  deriving DecidableEq, Repr

/-- A value that Python's `json.dumps` serializes directly (native int,
float, bool, str).  numpy scalars and date objects are not serializable. -/
def isJsonNative : Value → Bool
  | .pyInt _ => true
  | .pyFloat _ => true
  | .pyBool _ => true
  | .pyStr _ => true
  | _ => false

/-- Embedding of `SyntheticDataGenerator._ensure_json_serializable`
(synthetic.py lines 85-109): numpy integers and floats are converted via
`.item()`, numpy booleans via `bool()`, date/datetime objects via
`.isoformat()` (the payload already stands for the ISO text), strings via
`str()`, and everything else is returned unchanged. -/
def ensureJsonSerializable : Value → Value
  | .npInt n => .pyInt n
  | .npFloat p => .pyFloat p
  | .npBool b => .pyBool b
  | .pyDate s => .pyStr s
  | .pyDatetime s => .pyStr s
  | .pyStr s => .pyStr s
  | v => v

/-- Model of Python `str()` applied to a generated value (used by f-string
interpolation in the generator lambdas). -/
def pyStrOf : Value → String
  | .npInt n => toString n
  | .npFloat p => "npfloat-" ++ toString p
  | .npBool b => toString b
  | .pyInt n => toString n
  | .pyFloat p => "float-" ++ toString p
  | .pyBool b => toString b
  | .pyStr s => s
  | .pyDate s => s
  | .pyDatetime s => s

/-- ASCII uppercase of one character (Python `str.upper` restricted to
ASCII, which covers the SQL keywords the handler tests for). -/
def upperChar (c : Char) : Char :=
  if 97 ≤ c.toNat ∧ c.toNat ≤ 122 then Char.ofNat (c.toNat - 32) else c

/-- ASCII whitespace (the characters Python `str.strip` removes that can
occur around a query). -/
def isSpaceChar (c : Char) : Bool :=
  c = ' ' ∨ c = '\t' ∨ c = '\n' ∨ c = '\r'

/-- Python `str.strip()`. -/
def pyStrip (s : String) : String :=
  String.mk (((s.toList.dropWhile isSpaceChar).reverse.dropWhile isSpaceChar).reverse)

/-- Python `str.upper()` (ASCII). -/
def pyUpper (s : String) : String :=
  String.mk (s.toList.map upperChar)

def startsWithChars : List Char → List Char → Bool
  | _, [] => true
  | [], _ :: _ => false
  | a :: l, b :: m => a = b && startsWithChars l m

/-- Python `str.startswith`. -/
def pyStartsWith (s p : String) : Bool := startsWithChars s.toList p.toList

/-- Python `str.endswith`. -/
def strEndsWith (s p : String) : Bool := startsWithChars s.toList.reverse p.toList.reverse

/-- Python slicing `s[n:]`. -/
def strDrop (s : String) (n : Nat) : String := String.mk (s.toList.drop n)

/-- Python slicing `s[:-n]`. -/
def strDropRight (s : String) (n : Nat) : String :=
  String.mk (s.toList.take (s.toList.length - n))

/-- Embedding of a column specification dictionary (the values of the
schema dicts in synthetic.py / server.py).  `Option` fields model key
presence: `none` means the key is absent.  The source key `"prefix"` is
modelled by the field `pfx` (`prefix` is not a usable Lean name); the
source key `"type"` by `type_`. -/
structure ColSpec where
  type_ : String
  generator : Option String := none
  min? : Option Int := none
  max? : Option Int := none
  pfx : Option String := none
  categories : Option (List String) := none
  correlated : Option Bool := none
  deriving DecidableEq, Repr

/-- A table schema: ordered association of column names to specifications
(modelling a Python dict with its insertion order). -/
abbrev Schema := List (String × ColSpec)

/-- The store of generated IDs, modelling `self._generated_ids`
(a `Dict[str, Set[...]]`); a missing key is the empty list. -/
abbrev IdStore := String → List Value

/-- Update one table's entry of the ID store (dict item assignment). -/
def setIds (ids : IdStore) (t : String) (vs : List Value) : IdStore :=
  fun u => if u = t then vs else ids u

/-- Embedding of `np.random.randint(low, high)`: an arbitrary value in
`[low, high)` driven by one entropy draw; numpy raises `ValueError` when
`low >= high`. -/
def randint (low high : Int) (r : Nat) : Except String Int :=
  if low < high then .ok (low + (r : Int) % (high - low)) else .error "low >= high"

/-- Error message raised by `_generate_unique_id` when all attempts collide
(synthetic.py line 342). -/
def failUniqueMsg (table : String) : String :=
  "Failed to generate unique ID for table " ++ table ++ " after 100 attempts"

/-- One loop iteration structure of `SyntheticDataGenerator._generate_unique_id`
(synthetic.py lines 291-342), with the remaining attempt budget as fuel:
draw `np.random.randint(min_val, max_val + 1)`, apply the prefix if one is
set (the source tests `if prefix:`, so an empty prefix counts as absent),
retry while the candidate is already in the table's ID set, and otherwise
add it to the set and return it. -/
def genUniqueIdAux (table : String) (spec : ColSpec) (ids : IdStore) (e : Ent) :
    Nat → Except String (Value × IdStore × Ent)
  | 0 => .error (failUniqueMsg table)
  | fuel + 1 =>
    if spec.type_ = "integer" ∨ spec.type_ = "int" then
      match randint (spec.min?.getD 1) (spec.max?.getD 1000000 + 1) (headE e) with
      | .error m => .error m
      | .ok n =>
        let pre := spec.pfx.getD ""
        let v : Value := if pre ≠ "" then .pyStr (pre ++ toString n) else .npInt n
        if v ∈ ids table then genUniqueIdAux table spec ids (tailE e) fuel
        else .ok (v, setIds ids table (v :: ids table), tailE e)
    else .error ("Unsupported ID type: " ++ spec.type_)

/-- Embedding of `SyntheticDataGenerator._generate_unique_id`: the attempt
loop runs for at most `max_attempts = 100` iterations. -/
def genUniqueId (table : String) (spec : ColSpec) (ids : IdStore) (e : Ent) :
    Except String (Value × IdStore × Ent) :=
  genUniqueIdAux table spec ids e 100

/-- A sequence of `rows` calls to `_generate_unique_id` for one column, as
performed by the list comprehensions in `generate_synthetic_data`
(synthetic.py lines 516-519 and 527-530). -/
def genUniqueIds (table : String) (spec : ColSpec) (ids : IdStore) (e : Ent) :
    Nat → Except String (List Value × IdStore × Ent)
  | 0 => .ok ([], ids, e)
  | rows + 1 =>
    match genUniqueId table spec ids e with
    | .error m => .error m
    | .ok (v, ids', e') =>
      match genUniqueIds table spec ids' e' rows with
      | .error m => .error m
      | .ok (vs, ids'', e'') => .ok (v :: vs, ids'', e'')

/-- Shape of values `_generate_unique_id` can return: a bare numpy integer,
or a prefixed string. -/
def isIdShape : Value → Prop
  | .npInt _ => True
  | .pyStr _ => True
  | _ => False

instance (v : Value) : Decidable (isIdShape v) := by
  cases v <;> simp [isIdShape] <;> infer_instance

theorem setIds_self (ids : IdStore) (t : String) (vs : List Value) :
    setIds ids t vs t = vs := by
  simp [setIds]

theorem setIds_ne (ids : IdStore) (t u : String) (vs : List Value) (h : u ≠ t) :
    setIds ids t vs u = ids u := by
  simp [setIds, h]

/-- Inversion for one successful `_generate_unique_id` call: the returned
value was not in the table's set, it is recorded under exactly that table
before being returned, other tables are untouched, and the value has ID
shape. -/
theorem genUniqueIdAux_ok (table : String) (spec : ColSpec) :
    ∀ (fuel : Nat) (ids : IdStore) (e : Ent) (v : Value) (ids' : IdStore) (e' : Ent),
      genUniqueIdAux table spec ids e fuel = .ok (v, ids', e') →
      v ∉ ids table ∧ ids' = setIds ids table (v :: ids table) ∧ isIdShape v := by
  intro fuel
  induction fuel with
  | zero => intro ids e v ids' e' h; simp [genUniqueIdAux] at h
  | succ fuel ih =>
    intro ids e v ids' e' h
    simp only [genUniqueIdAux] at h
    split at h
    · rcases hr : randint (spec.min?.getD 1) (spec.max?.getD 1000000 + 1) (headE e) with m | n
      · rw [hr] at h; exact absurd h (by simp)
      · rw [hr] at h
        simp only at h
        generalize hv0 : (if (spec.pfx.getD "") ≠ ""
            then Value.pyStr ((spec.pfx.getD "") ++ toString n)
            else Value.npInt n) = v0 at h
        split at h
        · exact ih ids (tailE e) v ids' e' h
        · rename_i hmem
          simp only [Except.ok.injEq, Prod.mk.injEq] at h
          obtain ⟨hv1, hv2, _⟩ := h
          subst hv1
          refine ⟨hmem, hv2.symm, ?_⟩
          rw [← hv0]
          split <;> trivial
    · exact absurd h (by simp)

/-- Inversion for `genUniqueId` (fuel instantiated at `max_attempts = 100`). -/
theorem genUniqueId_ok (table : String) (spec : ColSpec) (ids : IdStore) (e : Ent)
    (v : Value) (ids' : IdStore) (e' : Ent)
    (h : genUniqueId table spec ids e = .ok (v, ids', e')) :
    v ∉ ids table ∧ ids' = setIds ids table (v :: ids table) ∧ isIdShape v :=
  genUniqueIdAux_ok table spec 100 ids e v ids' e' h

/-- Inversion for a successful run of `rows` unique-ID draws: the returned
values are pairwise distinct, none of them was already in the table's ID
set, all have ID shape, and there is one per requested row. -/
theorem genUniqueIds_ok (table : String) (spec : ColSpec) :
    ∀ (rows : Nat) (ids : IdStore) (e : Ent) (vs : List Value) (ids' : IdStore) (e' : Ent),
      genUniqueIds table spec ids e rows = .ok (vs, ids', e') →
      vs.Nodup ∧ (∀ v ∈ vs, v ∉ ids table ∧ isIdShape v) ∧ vs.length = rows := by
  intro rows
  induction rows with
  | zero =>
    intro ids e vs ids' e' h
    simp only [genUniqueIds, Except.ok.injEq, Prod.mk.injEq] at h
    obtain ⟨h1, _, _⟩ := h
    subst h1
    simp
  | succ rows ih =>
    intro ids e vs ids' e' h
    simp only [genUniqueIds] at h
    rcases h1 : genUniqueId table spec ids e with m | ⟨v, ids1, e1⟩
    · rw [h1] at h; exact absurd h (by simp)
    · rw [h1] at h
      simp only at h
      rcases h2 : genUniqueIds table spec ids1 e1 rows with m | ⟨vs1, ids2, e2⟩
      · rw [h2] at h; exact absurd h (by simp)
      · rw [h2] at h
        simp only [Except.ok.injEq, Prod.mk.injEq] at h
        obtain ⟨hvs, _, _⟩ := h
        subst hvs
        obtain ⟨hnotmem, hids1, hshape⟩ := genUniqueId_ok table spec ids e v ids1 e1 h1
        obtain ⟨hnd, hmem, hlen⟩ := ih ids1 e1 vs1 ids2 e2 h2
        subst hids1
        refine ⟨?_, ?_, by simp [hlen]⟩
        · refine List.nodup_cons.mpr ⟨?_, hnd⟩
          intro hvmem
          have hv := (hmem v hvmem).1
          rw [setIds_self] at hv
          exact hv (List.mem_cons_self v _)
        · intro u hu
          rcases List.mem_cons.mp hu with rfl | hu'
          · exact ⟨hnotmem, hshape⟩
          · have h3 := hmem u hu'
            rw [setIds_self] at h3
            exact ⟨fun hc => h3.1 (List.mem_cons_of_mem _ hc), h3.2⟩

/-- For an integer ID column without a (truthy) prefix, every value
`_generate_unique_id` returns is a bare numpy integer inside the inclusive
range `[min, max]` sampled by `np.random.randint(min_val, max_val + 1)`. -/
theorem genUniqueIdAux_ok_int (table : String) (spec : ColSpec)
    (hty : spec.type_ = "integer" ∨ spec.type_ = "int")
    (hpre : spec.pfx.getD "" = "") :
    ∀ (fuel : Nat) (ids : IdStore) (e : Ent) (v : Value) (ids' : IdStore) (e' : Ent),
      genUniqueIdAux table spec ids e fuel = .ok (v, ids', e') →
      ∃ n : Int, v = .npInt n ∧ spec.min?.getD 1 ≤ n ∧ n ≤ spec.max?.getD 1000000 := by
  intro fuel
  induction fuel with
  | zero => intro ids e v ids' e' h; simp [genUniqueIdAux] at h
  | succ fuel ih =>
    intro ids e v ids' e' h
    simp only [genUniqueIdAux] at h
    rw [if_pos hty] at h
    rcases hr : randint (spec.min?.getD 1) (spec.max?.getD 1000000 + 1) (headE e) with m | n
    · rw [hr] at h; exact absurd h (by simp)
    · rw [hr] at h
      simp only [hpre, ne_eq, not_true_eq_false, if_false] at h
      split at h
      · exact ih ids (tailE e) v ids' e' h
      · simp only [Except.ok.injEq, Prod.mk.injEq] at h
        obtain ⟨hv1, _, _⟩ := h
        subst hv1
        refine ⟨n, rfl, ?_, ?_⟩
        · simp only [randint] at hr
          split at hr
          · simp only [Except.ok.injEq] at hr
            subst hr
            have : (0 : Int) ≤ (headE e : Int) % (spec.max?.getD 1000000 + 1 - spec.min?.getD 1) :=
              Int.emod_nonneg _ (by omega)
            omega
          · exact absurd hr (by simp)
        · simp only [randint] at hr
          split at hr
          · rename_i hlt
            simp only [Except.ok.injEq] at hr
            subst hr
            have : (headE e : Int) % (spec.max?.getD 1000000 + 1 - spec.min?.getD 1) <
                spec.max?.getD 1000000 + 1 - spec.min?.getD 1 :=
              Int.emod_lt_of_pos _ (by omega)
            omega
          · exact absurd hr (by simp)

/-- For an integer ID column without a prefix and a nonempty range, every
error `_generate_unique_id` can raise is the attempt-exhaustion error. -/
theorem genUniqueIdAux_error_msg (table : String) (spec : ColSpec)
    (hty : spec.type_ = "integer" ∨ spec.type_ = "int")
    (hrange : spec.min?.getD 1 ≤ spec.max?.getD 1000000) :
    ∀ (fuel : Nat) (ids : IdStore) (e : Ent) (m : String),
      genUniqueIdAux table spec ids e fuel = .error m → m = failUniqueMsg table := by
  intro fuel
  induction fuel with
  | zero =>
    intro ids e m h
    simp only [genUniqueIdAux, Except.error.injEq] at h
    exact h.symm
  | succ fuel ih =>
    intro ids e m h
    simp only [genUniqueIdAux] at h
    rw [if_pos hty] at h
    rcases hr : randint (spec.min?.getD 1) (spec.max?.getD 1000000 + 1) (headE e) with m' | n
    · exfalso
      simp only [randint] at hr
      split at hr
      · exact absurd hr (by simp)
      · omega
    · rw [hr] at h
      simp only at h
      generalize (if (spec.pfx.getD "") ≠ ""
          then Value.pyStr ((spec.pfx.getD "") ++ toString n)
          else Value.npInt n) = v0 at h
      split at h
      · exact ih ids (tailE e) m h
      · exact absurd h (by simp)

/-- Integer payload of a generated ID value (0 for non-integer shapes). -/
def intOf : Value → Int
  | .npInt n => n
  | _ => 0

/-- Sequence-level version of `genUniqueIdAux_ok_int`: all values of an
integer, prefix-free ID column lie in the inclusive `[min, max]` range. -/
theorem genUniqueIds_ok_int (table : String) (spec : ColSpec)
    (hty : spec.type_ = "integer" ∨ spec.type_ = "int")
    (hpre : spec.pfx.getD "" = "") :
    ∀ (rows : Nat) (ids : IdStore) (e : Ent) (vs : List Value) (ids' : IdStore) (e' : Ent),
      genUniqueIds table spec ids e rows = .ok (vs, ids', e') →
      ∀ v ∈ vs, ∃ n : Int, v = .npInt n ∧ spec.min?.getD 1 ≤ n ∧ n ≤ spec.max?.getD 1000000 := by
  intro rows
  induction rows with
  | zero =>
    intro ids e vs ids' e' h
    simp only [genUniqueIds, Except.ok.injEq, Prod.mk.injEq] at h
    obtain ⟨h1, _, _⟩ := h
    subst h1
    simp
  | succ rows ih =>
    intro ids e vs ids' e' h
    simp only [genUniqueIds] at h
    rcases h1 : genUniqueId table spec ids e with m | ⟨v, ids1, e1⟩
    · rw [h1] at h; exact absurd h (by simp)
    · rw [h1] at h
      simp only at h
      rcases h2 : genUniqueIds table spec ids1 e1 rows with m | ⟨vs1, ids2, e2⟩
      · rw [h2] at h; exact absurd h (by simp)
      · rw [h2] at h
        simp only [Except.ok.injEq, Prod.mk.injEq] at h
        obtain ⟨hvs, _, _⟩ := h
        subst hvs
        intro u hu
        rcases List.mem_cons.mp hu with rfl | hu'
        · exact genUniqueIdAux_ok_int table spec hty hpre 100 ids e u ids1 e1 h1
        · exact ih ids1 e1 vs1 ids2 e2 h2 u hu'

/-- Pigeonhole bound: a successful run of `rows` unique integer ID draws in
the inclusive range `[min, max]` forces `rows ≤ max - min + 1`, because the
returned values are pairwise distinct members of that range. -/
theorem genUniqueIds_rows_le (table : String) (spec : ColSpec)
    (hty : spec.type_ = "integer" ∨ spec.type_ = "int")
    (hpre : spec.pfx.getD "" = "")
    (hrange : spec.min?.getD 1 ≤ spec.max?.getD 1000000)
    (rows : Nat) (ids : IdStore) (e : Ent) (vs : List Value) (ids' : IdStore) (e' : Ent)
    (h : genUniqueIds table spec ids e rows = .ok (vs, ids', e')) :
    (rows : Int) ≤ spec.max?.getD 1000000 - spec.min?.getD 1 + 1 := by
  obtain ⟨hnd, _, hlen⟩ := genUniqueIds_ok table spec rows ids e vs ids' e' h
  have hint := genUniqueIds_ok_int table spec hty hpre rows ids e vs ids' e' h
  have hmapnd : (vs.map intOf).Nodup := by
    refine List.Nodup.map_on ?_ hnd
    intro x hx y hy hxy
    obtain ⟨a, rfl, _, _⟩ := hint x hx
    obtain ⟨b, rfl, _, _⟩ := hint y hy
    simpa [intOf] using hxy
  have hsubset : (vs.map intOf).toFinset ⊆
      Finset.Icc (spec.min?.getD 1) (spec.max?.getD 1000000) := by
    intro n hn
    rw [List.mem_toFinset] at hn
    obtain ⟨v, hv, rfl⟩ := List.mem_map.mp hn
    obtain ⟨a, rfl, h1, h2⟩ := hint v hv
    simpa [intOf, Finset.mem_Icc] using ⟨h1, h2⟩
  have hcard : (vs.map intOf).length ≤
      (Finset.Icc (spec.min?.getD 1) (spec.max?.getD 1000000)).card := by
    rw [← List.toFinset_card_of_nodup hmapnd]
    exact Finset.card_le_card hsubset
  rw [List.length_map, hlen, Int.card_Icc] at hcard
  have hnn : (0 : Int) ≤ spec.max?.getD 1000000 + 1 - spec.min?.getD 1 := by omega
  have := Int.toNat_of_nonneg hnn
  omega

/-- Error propagation: with a valid integer spec the only error a sequence
of unique-ID draws can produce is the attempt-exhaustion error. -/
theorem genUniqueIds_error_msg (table : String) (spec : ColSpec)
    (hty : spec.type_ = "integer" ∨ spec.type_ = "int")
    (hrange : spec.min?.getD 1 ≤ spec.max?.getD 1000000) :
    ∀ (rows : Nat) (ids : IdStore) (e : Ent) (m : String),
      genUniqueIds table spec ids e rows = .error m → m = failUniqueMsg table := by
  intro rows
  induction rows with
  | zero => intro ids e m h; simp [genUniqueIds] at h
  | succ rows ih =>
    intro ids e m h
    simp only [genUniqueIds] at h
    rcases h1 : genUniqueId table spec ids e with m' | ⟨v, ids1, e1⟩
    · rw [h1] at h
      simp only [Except.error.injEq] at h
      subst h
      exact genUniqueIdAux_error_msg table spec hty hrange 100 ids e m' h1
    · rw [h1] at h
      simp only at h
      rcases h2 : genUniqueIds table spec ids1 e1 rows with m' | ⟨vs1, ids2, e2⟩
      · rw [h2] at h
        simp only [Except.error.injEq] at h
        subst h
        exact ih ids1 e1 m' h2
      · rw [h2] at h; exact absurd h (by simp)

/-- When more rows are requested than the inclusive range has distinct
values, the unique-ID column generation necessarily fails with the
attempt-exhaustion `ValueError`. -/
theorem genUniqueIds_fail (table : String) (spec : ColSpec)
    (hty : spec.type_ = "integer" ∨ spec.type_ = "int")
    (hpre : spec.pfx.getD "" = "")
    (hrange : spec.min?.getD 1 ≤ spec.max?.getD 1000000)
    (rows : Nat)
    (hrows : (rows : Int) > spec.max?.getD 1000000 - spec.min?.getD 1 + 1)
    (ids : IdStore) (e : Ent) :
    genUniqueIds table spec ids e rows = .error (failUniqueMsg table) := by
  rcases hres : genUniqueIds table spec ids e rows with m | ⟨vs, ids', e'⟩
  · rw [genUniqueIds_error_msg table spec hty hrange rows ids e m hres]
  · exfalso
    have := genUniqueIds_rows_le table spec hty hpre hrange rows ids e vs ids' e' hres
    omega

/-- Embedding of `SyntheticDataGenerator._extract_parent_table`
(synthetic.py lines 377-419): three special cases, then strip the `_id`
suffix and pluralize; any other column name raises `ValueError`. -/
def extractParentTable (colName : String) : Except String String :=
  if colName = "policy_id" then .ok "policies"
  else if colName = "customer_id" then .ok "customers"
  else if colName = "claim_id" then .ok "claims"
  else if strEndsWith colName "_id" then
    let tableName := strDropRight colName 3
    .ok (if strEndsWith tableName "s" then tableName else tableName ++ "s")
  else .error ("Invalid column name for parent table extraction: " ++ colName)

/-- Faker methods returning `datetime.date` objects. -/
def fakerDateMethods : List String := ["date", "date_of_birth", "date_this_year", "date_this_decade"]

/-- Faker methods returning `datetime.datetime` objects. -/
def fakerDatetimeMethods : List String := ["date_time_this_year"]

/-- Faker methods returning strings (the ones the repository's schemas
use); other attribute lookups raise `AttributeError`. -/
def fakerStrMethods : List String :=
  ["text", "name", "first_name", "last_name", "email", "phone_number", "address", "company"]

/-- Model of `getattr(self.faker, method)()`: known methods produce a
value (dates as date objects, everything else as opaque text tokens drawn
from the entropy stream); an unknown method is an `AttributeError`,
modelled as `none`. -/
def fakerAttr (method : String) (e : Ent) : Option (Value × Ent) :=
  if method ∈ fakerDateMethods then
    some (.pyDate ("faker-" ++ method ++ "-" ++ toString (headE e)), tailE e)
  else if method ∈ fakerDatetimeMethods then
    some (.pyDatetime ("faker-" ++ method ++ "-" ++ toString (headE e)), tailE e)
  else if method ∈ fakerStrMethods then
    some (.pyStr ("faker-" ++ method ++ "-" ++ toString (headE e)), tailE e)
  else none

/-- The `method_map` dict of `_map_faker_type` (synthetic.py lines
234-246) as a function: all entries map a name to itself except
`"phone" -> "phone_number"` and `"string" -> "text"`; `.get(t, t)` falls
back to the key itself. -/
def fakerMethodMap (t : String) : String :=
  if t = "phone" then "phone_number" else if t = "string" then "text" else t

/-- Embedding of `SyntheticDataGenerator._map_faker_type` (synthetic.py
lines 212-259): resolve `faker.<m>` names or map common type names, call
the faker method, and on `AttributeError` fall back to `faker.text()` for
`"string"` or raise `ValueError`. -/
def mapFakerType (dataType : String) (e : Ent) : Except String (Value × Ent) :=
  let method :=
    if pyStartsWith dataType "faker." then strDrop dataType 6
    else if dataType = "string" then "text"
    else fakerMethodMap dataType
  match fakerAttr method e with
  | some r => .ok r
  | none =>
    if dataType = "string" then .ok (.pyStr ("faker-text-" ++ toString (headE e)), tailE e)
    else .error ("Unsupported faker type: " ++ dataType)

/-- Model of `SyntheticDataGenerator._generate_mimesis_value`: an opaque
string token (no checked property reaches the invalid-method error). -/
def genMimesisValue (g : String) (e : Ent) : Except String (Value × Ent) :=
  .ok (.pyStr ("mimesis-" ++ g ++ "-" ++ toString (headE e)), tailE e)

/-- Embedding of `np.random.choice` on a list: a pick driven by one
entropy draw; `none` exactly when the list is empty (numpy raises). -/
def npChoice {α : Type} (l : List α) (r : Nat) : Option α :=
  l.get? (r % l.length)

/-- Embedding of `SyntheticDataGenerator._generate_correlated_id`
(synthetic.py lines 344-375): raise `ValueError` when the parent table has
no recorded IDs, otherwise return a random member of that set. -/
def genCorrelatedId (parent : String) (ids : IdStore) (e : Ent) : Except String (Value × Ent) :=
  match npChoice (ids parent) (headE e) with
  | none => .error ("No IDs available for parent table " ++ parent)
  | some v => .ok (v, tailE e)

/-- First-order description of the generator closure returned by
`_map_type_to_generator`: each constructor records one of the lambdas of
synthetic.py lines 142-210 together with the data it captures. -/
inductive GenKind where
  | fakerOf (dataType : String)
  | mimesisOf (g : String)
  | numpyAttr (m : String)
  | numpyInt (lo hi : Int)
  | numpyFloat
  | booleanK
  | correlatedOf (parent : String)
  | uniqueIdOf (table : String) (spec : ColSpec)
  | strPfxCat (p : String) (cats : List String)
  | strPfxText (p : String)
  | catOf (cats : List String)
  deriving DecidableEq, Repr

/-- Value of `self.current_table`: set to `""` in `__init__` (synthetic.py line 78)
and never assigned anywhere else in the repository, so it is a constant. -/
def currentTable : String := ""

/-- Embedding of `SyntheticDataGenerator._map_type_to_generator`
(synthetic.py lines 111-210).  The eager part of the Python function is
the branch selection (including the call to `_extract_parent_table` on
`self.current_table` in the `"correlated" in spec` branch, which happens
before any value is generated); the returned closure is described by a
`GenKind`.  An empty `generator` string is falsy in Python, so the
explicit-generator block is keyed on `generator.getD "" ≠ ""`. -/
def mapTypeToGenerator (curTable colName : String) (spec : ColSpec) : Except String GenKind :=
  let gen := spec.generator.getD ""
  if gen ≠ "" then
    if pyStartsWith gen "faker." then .ok (.fakerOf gen)
    else if pyStartsWith gen "mimesis." then .ok (.mimesisOf gen)
    else if pyStartsWith gen "numpy." then .ok (.numpyAttr (strDrop gen 6))
    else if gen = "faker" then .ok (.fakerOf spec.type_)
    else if gen = "numpy" then
      if spec.type_ = "int" ∨ spec.type_ = "integer" then
        .ok (.numpyInt (spec.min?.getD 0) (spec.max?.getD 100))
      else if spec.type_ = "float" then .ok .numpyFloat
      else if spec.type_ = "boolean" then .ok .booleanK
      else .error ("Unsupported numpy type: " ++ spec.type_)
    else .error ("Unknown generator type: " ++ gen)
  else if spec.correlated.isSome then
    match extractParentTable curTable with
    | .error m => .error m
    | .ok parent => .ok (.correlatedOf parent)
  else if strEndsWith colName "_id" ∨ colName = "id" then .ok (.uniqueIdOf curTable spec)
  else if spec.type_ = "string" then
    match spec.pfx with
    | some p =>
      match spec.categories with
      | some cats => .ok (.strPfxCat p cats)
      | none => .ok (.strPfxText p)
    | none =>
      match spec.categories with
      | some cats => .ok (.catOf cats)
      | none => .ok (.fakerOf "text")
  else if spec.type_ = "int" ∨ spec.type_ = "integer" then
    .ok (.numpyInt (spec.min?.getD 0) (spec.max?.getD 100))
  else if spec.type_ = "float" then .ok .numpyFloat
  else if spec.type_ = "boolean" then .ok .booleanK
  else if spec.type_ = "category" then .ok (.catOf (spec.categories.getD []))
  else if spec.type_ = "datetime" then .ok (.fakerOf "date_time_this_year")
  else if spec.type_ = "date" then .ok (.fakerOf "date")
  else .error ("Unsupported data type: " ++ spec.type_)

/-- One invocation of the closure described by a `GenKind` (the lambdas of
`_map_type_to_generator`).  `numpy.<m>` attribute calls and uniform floats
are wrapped in `_ensure_json_serializable` / `float()` by the source, so
they yield native floats; `np.random.randint` is wrapped in `int()`. -/
def runGen (k : GenKind) (ids : IdStore) (e : Ent) : Except String (Value × IdStore × Ent) :=
  match k with
  | .fakerOf t =>
    match mapFakerType t e with
    | .error m => .error m
    | .ok (v, e') => .ok (v, ids, e')
  | .mimesisOf g =>
    match genMimesisValue g e with
    | .error m => .error m
    | .ok (v, e') => .ok (v, ids, e')
  | .numpyAttr _ => .ok (.pyFloat (headE e), ids, tailE e)
  | .numpyInt lo hi =>
    match randint lo hi (headE e) with
    | .error m => .error m
    | .ok n => .ok (.pyInt n, ids, tailE e)
  | .numpyFloat => .ok (.pyFloat (headE e), ids, tailE e)
  | .booleanK => .ok (.pyBool (headE e % 2 == 0), ids, tailE e)
  | .correlatedOf p =>
    match genCorrelatedId p ids e with
    | .error m => .error m
    | .ok (v, e') => .ok (v, ids, e')
  | .uniqueIdOf t spec => genUniqueId t spec ids e
  | .strPfxCat p cats =>
    match npChoice cats (headE e) with
    | none => .error "a cannot be empty"
    | some c => .ok (.pyStr (p ++ c), ids, tailE e)
  | .strPfxText p =>
    match mapFakerType "text" e with
    | .error m => .error m
    | .ok (v, e') => .ok (.pyStr (p ++ pyStrOf v), ids, e')
  | .catOf cats =>
    match npChoice cats (headE e) with
    | none => .error "a cannot be empty"
    | some c => .ok (.pyStr c, ids, tailE e)

/-- Perform `rows` raw invocations of a generator closure (the body of a list or
set comprehension over `range(rows)`). -/
def runGenRawN (k : GenKind) (ids : IdStore) (e : Ent) :
    Nat → Except String (List Value × IdStore × Ent)
  | 0 => .ok ([], ids, e)
  | r + 1 =>
    match runGen k ids e with
    | .error m => .error m
    | .ok (v, ids1, e1) =>
      match runGenRawN k ids1 e1 r with
      | .error m => .error m
      | .ok (vs, ids2, e2) => .ok (v :: vs, ids2, e2)

/-- The per-table data dict being built by `generate_synthetic_data`:
column name to list of values, in insertion order. -/
abbrev TableData := List (String × List Value)

/-- Dict item assignment `d[c] = v` on an insertion-ordered association
list: replace an existing entry in place, otherwise append. -/
def dictSet {α : Type} (d : List (String × α)) (c : String) (v : α) : List (String × α) :=
  if (d.lookup c).isSome then d.map (fun p => if p.1 = c then (c, v) else p)
  else d ++ [(c, v)]

/-- Dict item assignment `data[col] = vs` on the per-table data dict. -/
def dataSet (d : TableData) (c : String) (vs : List Value) : TableData :=
  dictSet d c vs

/-- Embedding of `SyntheticDataGenerator._ensure_parent_table_ids`
(synthetic.py lines 421-465): when the parent table has no recorded IDs
(`dict.get` is falsy for a missing key or an empty set), look up the
parent's default schema (raising `ValueError` when absent), resolve the ID
field among the documented candidates, build its generator with
`_map_type_to_generator`, and record the set of `rows` generated values
under the parent table. -/
def ensureParentTableIds (defaults : String → Option Schema) (parent : String) (rows : Nat)
    (ids : IdStore) (e : Ent) : Except String (IdStore × Ent) :=
  if ids parent ≠ [] then .ok (ids, e)
  else
    match defaults parent with
    | none => .error ("No schema found for parent table " ++ parent)
    | some pschema =>
      let cands : List String :=
        [strDropRight parent 1 ++ "_id", parent ++ "_id"] ++
        (if parent = "policies" then ["policy_id"] else []) ++
        (if parent = "customers" then ["customer_id"] else []) ++
        (if parent = "claims" then ["claim_id"] else [])
      match cands.findSome? (fun f => (pschema.lookup f).map (fun s => (f, s))) with
      | none => .error ("No ID field found in schema for parent table " ++ parent)
      | some (f, fspec) =>
        match mapTypeToGenerator currentTable f fspec with
        | .error m => .error m
        | .ok k =>
          match runGenRawN k ids e rows with
          | .error m => .error m
          | .ok (vs, ids1, e1) => .ok (setIds ids1 parent vs.dedup, e1)

/-- Perform `rows` draws of `_generate_correlated_id` from a fixed store (the
second-pass list comprehension, synthetic.py lines 544-547). -/
def drawCorrelatedN (parent : String) (ids : IdStore) (e : Ent) :
    Nat → Except String (List Value × Ent)
  | 0 => .ok ([], e)
  | r + 1 =>
    match genCorrelatedId parent ids e with
    | .error m => .error m
    | .ok (v, e1) =>
      match drawCorrelatedN parent ids e1 r with
      | .error m => .error m
      | .ok (vs, e2) => .ok (v :: vs, e2)

/-- Parent-table ID pre-generation step of `generate_synthetic_data`
(synthetic.py lines 512-520): for a table with a default schema whose
`<singular>_id` field is present in the supplied schema, generate that
column first and replace the table's recorded ID set with exactly the
column's values. -/
def preStep (defaults : String → Option Schema) (table : String) (schema : Schema)
    (rows : Nat) (ids : IdStore) (e : Ent) : Except String (TableData × IdStore × Ent) :=
  match defaults table with
  | none => .ok ([], ids, e)
  | some _ =>
    let idField := strDropRight table 1 ++ "_id"
    match schema.lookup idField with
    | none => .ok ([], ids, e)
    | some fspec =>
      match genUniqueIds table fspec ids e rows with
      | .error m => .error m
      | .ok (vs, ids1, e1) => .ok (dataSet [] idField vs, setIds ids1 table vs.dedup, e1)

/-- First pass of `generate_synthetic_data` for one column (synthetic.py
lines 522-537): skip columns whose `correlated` value is truthy or that
are already in `data`; generate `_id` columns with `_generate_unique_id`
and all others through `_map_type_to_generator`, wrapping each value in
`_ensure_json_serializable`. -/
def firstPassCol (table : String) (rows : Nat) (colName : String) (spec : ColSpec)
    (data : TableData) (ids : IdStore) (e : Ent) : Except String (TableData × IdStore × Ent) :=
  if spec.correlated.getD false ∨ (data.lookup colName).isSome then .ok (data, ids, e)
  else if strEndsWith colName "_id" then
    match genUniqueIds table spec ids e rows with
    | .error m => .error m
    | .ok (vs, ids1, e1) => .ok (dataSet data colName vs, ids1, e1)
  else
    match mapTypeToGenerator currentTable colName spec with
    | .error m => .error m
    | .ok k =>
      match runGenRawN k ids e rows with
      | .error m => .error m
      | .ok (vs, ids1, e1) => .ok (dataSet data colName (vs.map ensureJsonSerializable), ids1, e1)

/-- First pass of `generate_synthetic_data` over the whole schema. -/
def firstPass (table : String) (rows : Nat) :
    Schema → TableData → IdStore → Ent → Except String (TableData × IdStore × Ent)
  | [], data, ids, e => .ok (data, ids, e)
  | (c, s) :: rest, data, ids, e =>
    match firstPassCol table rows c s data ids e with
    | .error m => .error m
    | .ok (d1, i1, e1) => firstPass table rows rest d1 i1 e1

/-- Second pass of `generate_synthetic_data` for one column (synthetic.py
lines 539-547): for a column with truthy `correlated`, derive the parent
table from the column name, ensure the parent has IDs, and fill the column
with random members of the parent's ID set. -/
def secondPassCol (defaults : String → Option Schema) (rows : Nat) (colName : String)
    (spec : ColSpec) (data : TableData) (ids : IdStore) (e : Ent) :
    Except String (TableData × IdStore × Ent) :=
  if spec.correlated.getD false then
    match extractParentTable colName with
    | .error m => .error m
    | .ok parent =>
      match ensureParentTableIds defaults parent rows ids e with
      | .error m => .error m
      | .ok (ids1, e1) =>
        match drawCorrelatedN parent ids1 e1 rows with
        | .error m => .error m
        | .ok (vs, e2) => .ok (dataSet data colName vs, ids1, e2)
  else .ok (data, ids, e)

/-- Second pass of `generate_synthetic_data` over the whole schema. -/
def secondPass (defaults : String → Option Schema) (rows : Nat) :
    Schema → TableData → IdStore → Ent → Except String (TableData × IdStore × Ent)
  | [], data, ids, e => .ok (data, ids, e)
  | (c, s) :: rest, data, ids, e =>
    match secondPassCol defaults rows c s data ids e with
    | .error m => .error m
    | .ok (d1, i1, e1) => secondPass defaults rows rest d1 i1 e1

/-- Embedding of `SyntheticDataGenerator.generate_synthetic_data`
(synthetic.py lines 479-556): parent-ID pre-step, first pass over
non-correlated columns, second pass over correlated columns, and a final
`_ensure_json_serializable` sweep over every stored value. -/
def generateSyntheticData (defaults : String → Option Schema) (table : String) (schema : Schema)
    (rows : Nat) (ids : IdStore) (e : Ent) : Except String (TableData × IdStore × Ent) :=
  match preStep defaults table schema rows ids e with
  | .error m => .error m
  | .ok (d0, i0, e0) =>
    match firstPass table rows schema d0 i0 e0 with
    | .error m => .error m
    | .ok (d1, i1, e1) =>
      match secondPass defaults rows schema d1 i1 e1 with
      | .error m => .error m
      | .ok (d2, i2, e2) =>
        .ok (d2.map (fun p => (p.1, p.2.map ensureJsonSerializable)), i2, e2)

/-- The `customers` default schema of `DataGenServer` (server.py lines
25-65).  (Float bounds are notated as integers: float sampling is opaque
in this model and no checked property inspects float values.) -/
def dgCustomersSchema : Schema :=
  [("customer_id", { type_ := "int", generator := some "numpy",
                     min? := some 10000, max? := some 99999 }),
   ("first_name", { type_ := "first_name", generator := some "faker" }),
   ("last_name", { type_ := "last_name", generator := some "faker" }),
   ("email", { type_ := "email", generator := some "faker" }),
   ("phone", { type_ := "phone_number", generator := some "faker" }),
   ("address", { type_ := "address", generator := some "faker" }),
   ("age", { type_ := "int", min? := some 18, max? := some 100 }),
   ("credit_score", { type_ := "int", min? := some 300, max? := some 850 }),
   ("active", { type_ := "boolean" })]

/-- The `policies` default schema of `DataGenServer` (server.py lines
66-112). -/
def dgPoliciesSchema : Schema :=
  [("policy_id", { type_ := "integer", generator := some "numpy",
                   min? := some 100000, max? := some 999999, pfx := some "POL-2024-" }),
   ("customer_id", { type_ := "int", min? := some 10000, max? := some 99999,
                     correlated := some true }),
   ("policy_type", { type_ := "category",
                     categories := some ["Auto", "Home", "Life", "Health"] }),
   ("start_date", { type_ := "date_this_year", generator := some "faker" }),
   ("premium", { type_ := "float", min? := some 500, max? := some 5000 }),
   ("deductible", { type_ := "float", min? := some 250, max? := some 2000 }),
   ("coverage_amount", { type_ := "int", min? := some 50000, max? := some 1000000 }),
   ("risk_score", { type_ := "int", min? := some 1, max? := some 100 }),
   ("status", { type_ := "category",
                categories := some ["Active", "Pending", "Expired", "Cancelled"] })]

/-- The `claims` default schema of `DataGenServer` (server.py lines
113-144). -/
def dgClaimsSchema : Schema :=
  [("claim_id", { type_ := "int", min? := some 100000, max? := some 999999 }),
   ("policy_id", { type_ := "integer", generator := some "numpy",
                   min? := some 100000, max? := some 999999, pfx := some "POL-2024-",
                   correlated := some true }),
   ("date_filed", { type_ := "date_this_year", generator := some "faker" }),
   ("amount", { type_ := "float", min? := some 100, max? := some 50000 }),
   ("status", { type_ := "category",
                categories := some ["Filed", "Under Review", "Approved", "Denied"] }),
   ("description", { type_ := "text", generator := some "faker" })]

/-- Embedding of `DataGenServer.default_schemas` (also assigned to the generator's
`default_schemas` in `DataGenServer.__init__`, server.py lines 146-147). -/
def dgDefaultSchemas : String → Option Schema := fun t =>
  if t = "customers" then some dgCustomersSchema
  else if t = "policies" then some dgPoliciesSchema
  else if t = "claims" then some dgClaimsSchema
  else none

/-- Embedding of `table_order` in `handle_generate_tables` (server.py line 361). -/
def tableOrder : List String := ["customers", "policies", "claims"]

/-- Python `list.index` returning `none` when absent. -/
def pyIndex : List String → String → Option Nat
  | [], _ => none
  | a :: l, x => if a = x then some 0 else (pyIndex l x).map (· + 1)

/-- The sort key of server.py lines 362-365:
`table_order.index(x) if x in table_order else len(table_order)`. -/
def sortKey (x : String) : Nat := (pyIndex tableOrder x).getD tableOrder.length

/-- Stable insertion by `sortKey`: the new element goes before the first
element whose key is not smaller, so earlier elements with an equal key
stay in front — exactly the stability Python's `sorted` documents. -/
def insertByKey (a : String) : List String → List String
  | [] => [a]
  | b :: l => if sortKey b < sortKey a then b :: insertByKey a l else a :: b :: l

/-- Stable sort by `sortKey`, modelling Python's (stable) `sorted` with the
key of server.py lines 362-365. -/
def ssortByKey : List String → List String
  | [] => []
  | a :: l => insertByKey a (ssortByKey l)

/-- Embedding of `ordered_tables` in `handle_generate_tables` (server.py lines 362-365). -/
def orderedTables (tables : List String) : List String := ssortByKey tables

/-- Schema resolution loop of `handle_generate_tables` (server.py lines
347-354): custom schema first, then the server's default schemas, else
`ValueError`. -/
def resolveSchemas (custom : String → Option Schema) :
    List String → Except String (List (String × Schema))
  | [] => .ok []
  | t :: rest =>
    match custom t with
    | some s =>
      match resolveSchemas custom rest with
      | .error m => .error m
      | .ok l => .ok ((t, s) :: l)
    | none =>
      match dgDefaultSchemas t with
      | some s =>
        match resolveSchemas custom rest with
        | .error m => .error m
        | .ok l => .ok ((t, s) :: l)
      | none => .error ("No schema found for table " ++ t)

/-- Per-table generation loop shared by both datagen handlers (server.py
lines 367-375 and 392-400): each table's `ValueError` is re-raised wrapped
in `Failed to generate table ...`. -/
def genTablesLoop (resolved : List (String × Schema)) (rows : Nat) :
    List String → List (String × TableData) → IdStore → Ent →
    Except String (List (String × TableData) × IdStore × Ent)
  | [], acc, ids, e => .ok (acc, ids, e)
  | t :: rest, acc, ids, e =>
    match generateSyntheticData dgDefaultSchemas t ((resolved.lookup t).getD []) rows ids e with
    | .error m => .error ("Failed to generate table " ++ t ++ ": " ++ m)
    | .ok (td, ids1, e1) => genTablesLoop resolved rows rest (dictSet acc t td) ids1 e1

/-- Arguments of the `generate_custom_tables` tool, with the defaults the
handler applies (server.py lines 339-341). -/
structure DatagenArgs where
  tables : List String := []
  rows : Int := 1000
  schemas : String → Option Schema := fun _ => none

/-- Embedding of `DataGenServer.handle_generate_tables` (server.py lines
337-377): positive-row check, schema resolution, `_clear_generated_ids`
(the loop starts from an empty ID store), and generation in
`orderedTables` order. -/
def handleGenerateTables (args : DatagenArgs) (e : Ent) :
    Except String (List (String × TableData) × IdStore × Ent) :=
  if args.rows ≤ 0 then .error "Row count must be positive"
  else
    match resolveSchemas args.schemas args.tables with
    | .error m => .error m
    | .ok resolved =>
      genTablesLoop resolved args.rows.toNat (orderedTables args.tables) [] (fun _ => []) e

/-- Embedding of `DataGenServer.handle_generate_insurance_data` (server.py
lines 379-402): positive-row check, clear, then the three default tables
in `table_order`. -/
def handleGenerateInsuranceData (rows : Int) (e : Ent) :
    Except String (List (String × TableData) × IdStore × Ent) :=
  if rows ≤ 0 then .error "Row count must be positive"
  else
    genTablesLoop
      [("customers", dgCustomersSchema), ("policies", dgPoliciesSchema),
       ("claims", dgClaimsSchema)]
      rows.toNat tableOrder [] (fun _ => []) e

/-- A `TextContent` response item. -/
structure TextContent where
  text : String
  deriving DecidableEq, Repr

/-- Model of `json.dumps` on a generated value: native values serialize,
numpy scalars and date objects raise `TypeError` (`none`). -/
def jsonValue : Value → Option String
  | .pyInt n => some (toString n)
  | .pyFloat p => some ("float-" ++ toString p)
  | .pyBool b => some (toString b)
  | .pyStr s => some ("\x22" ++ s ++ "\x22")
  | _ => none

/-- Serialize each element, failing (`TypeError`) if any element fails. -/
def optMapList {α β : Type} (f : α → Option β) : List α → Option (List β)
  | [] => some []
  | a :: l =>
    match f a, optMapList f l with
    | some b, some bs => some (b :: bs)
    | _, _ => none

/-- Model of `json.dumps` on one column. -/
def jsonColumn (vs : List Value) : Option String :=
  (optMapList jsonValue vs).map (fun l => "[" ++ String.intercalate ", " l ++ "]")

/-- Model of `json.dumps` on one table. -/
def jsonTableData (t : TableData) : Option String :=
  (optMapList (fun p => (jsonColumn p.2).map (fun s => "\x22" ++ p.1 ++ "\x22: " ++ s)) t).map
    (fun l => "\x7b" ++ String.intercalate ", " l ++ "\x7d")

/-- Model of `json.dumps({"tables": result}, indent=2)` (indentation is
abstracted; the serializability structure is what matters). -/
def jsonDumpsTables (r : List (String × TableData)) : Option String :=
  ((optMapList (fun p => (jsonTableData p.2).map (fun s => "\x22" ++ p.1 ++ "\x22: " ++ s)) r).map
    (fun l => "\x7b" ++ String.intercalate ", " l ++ "\x7d")).map
    (fun s => "\x7b\x22tables\x22: " ++ s ++ "\x7d")

/-- Embedding of the datagen server's `call_tool` (server.py lines
415-438): dispatch on the tool name, serialize the handler result as a
single `TextContent`, raise `McpError` for an unknown tool. -/
def callToolDatagen (name : String) (args : DatagenArgs) (e : Ent) :
    Except String (List TextContent × IdStore × Ent) :=
  if name = "generate_custom_tables" then
    match handleGenerateTables args e with
    | .error m => .error m
    | .ok (r, ids, e') =>
      match jsonDumpsTables r with
      | some s => .ok ([⟨s⟩], ids, e')
      | none => .error "TypeError: value is not JSON serializable"
  else if name = "generate_insurance_data" then
    match handleGenerateInsuranceData args.rows e with
    | .error m => .error m
    | .ok (r, ids, e') =>
      match jsonDumpsTables r with
      | some s => .ok ([⟨s⟩], ids, e')
      | none => .error "TypeError: value is not JSON serializable"
  else .error ("Unknown tool: " ++ name)

/-- A vector of `size` draws of `np.random.randint(low, high)` (the
`size=rows` form draws i.i.d. values from the same `[low, high)` range). -/
def randintList (lo hi : Int) (e : Ent) : Nat → Except String (List Int)
  | 0 => .ok []
  | r + 1 =>
    match randint lo hi (headE e) with
    | .error m => .error m
    | .ok n =>
      match randintList lo hi (tailE e) r with
      | .error m => .error m
      | .ok ns => .ok (n :: ns)

/-- Embedding of the numpy integer column path of
`DataGenerator.generate_table` (generators.py lines 56-64):
`np.random.randint(low=min, high=max, size=rows)` — an exclusive upper
bound, unlike `_generate_unique_id`. -/
def generateTableNumpyIntColumn (spec : ColSpec) (rows : Nat) (e : Ent) :
    Except String (List Int) :=
  randintList (spec.min?.getD 0) (spec.max?.getD 100) e rows

/-- A Python exception raised during sqlite tool handling: either a
`sqlite3.Error` or any other `Exception` (ValueError, KeyError, ...). -/
inductive PyErr where
  | sqlErr (msg : String)
  | otherErr (msg : String)
  deriving DecidableEq, Repr

/-- Evaluate `arguments.get(k)` on an optional argument dict (`None`, or a list of
key/value pairs); also covers `k in arguments` tests. -/
def getArg (args : Option (List (String × String))) (k : String) : Option String :=
  args.bind (fun l => l.lookup k)

/-- The `try:` body of the sqlite server's `handle_call_tool`
(sqlite/server.py lines 313-362), with the database (`db._execute_query`,
which may raise) and the `send_resource_updated` notification as oracles.
Missing-argument checks raise `ValueError` (`otherErr`); a missing
`"query"` key is a `KeyError`; an unknown tool with non-empty arguments
raises `ValueError("Unknown tool: ...")`, and with falsy arguments the
earlier `Missing arguments` check fires first, exactly as in the source. -/
def sqliteHandleInner (ex : String → Except PyErr String) (notify : Except PyErr Unit)
    (name : String) (args : Option (List (String × String))) :
    Except PyErr (List TextContent) :=
  if name = "list_tables" then
    match ex "SELECT name FROM sqlite_master WHERE type='table'" with
    | .error pe => .error pe
    | .ok r => .ok [⟨r⟩]
  else if name = "describe_table" then
    match getArg args "table_name" with
    | none => .error (.otherErr "Missing table_name argument")
    | some tn =>
      match ex ("PRAGMA table_info(" ++ tn ++ ")") with
      | .error pe => .error pe
      | .ok r => .ok [⟨r⟩]
  else if name = "append_insight" then
    match getArg args "insight" with
    | none => .error (.otherErr "Missing insight argument")
    | some _ =>
      match notify with
      | .error pe => .error pe
      | .ok _ => .ok [⟨"Insight added to memo"⟩]
  else
    match args with
    | none => .error (.otherErr "Missing arguments")
    | some l =>
      if l = [] then .error (.otherErr "Missing arguments")
      else if name = "read_query" then
        match l.lookup "query" with
        | none => .error (.otherErr "KeyError: query")
        | some q =>
          if ¬ (pyStartsWith (pyUpper (pyStrip q)) "SELECT") then
            .error (.otherErr "Only SELECT queries are allowed for read_query")
          else
            match ex q with
            | .error pe => .error pe
            | .ok r => .ok [⟨r⟩]
      else if name = "write_query" then
        match l.lookup "query" with
        | none => .error (.otherErr "KeyError: query")
        | some q =>
          if pyStartsWith (pyUpper (pyStrip q)) "SELECT" then
            .error (.otherErr "SELECT queries are not allowed for write_query")
          else
            match ex q with
            | .error pe => .error pe
            | .ok r => .ok [⟨r⟩]
      else if name = "create_table" then
        match l.lookup "query" with
        | none => .error (.otherErr "KeyError: query")
        | some q =>
          if ¬ (pyStartsWith (pyUpper (pyStrip q)) "CREATE TABLE") then
            .error (.otherErr "Only CREATE TABLE statements are allowed")
          else
            match ex q with
            | .error pe => .error pe
            | .ok _ => .ok [⟨"Table created successfully"⟩]
      else .error (.otherErr ("Unknown tool: " ++ name))

/-- The two `except` clauses of `handle_call_tool` (sqlite/server.py lines
364-367): `sqlite3.Error` becomes `Database error: ...`, every other
`Exception` becomes `Error: ...`. -/
def sqliteErrText : PyErr → String
  | .sqlErr m => "Database error: " ++ m
  | .otherErr m => "Error: " ++ m

/-- Embedding of the sqlite server's `handle_call_tool` (sqlite/server.py
lines 308-367): the whole body runs inside `try/except`, so the handler
always returns a response list and never propagates an exception. -/
def sqliteHandleCallTool (ex : String → Except PyErr String) (notify : Except PyErr Unit)
    (name : String) (args : Option (List (String × String))) : List TextContent :=
  match sqliteHandleInner ex notify name args with
  | .ok l => l
  | .error pe => [⟨sqliteErrText pe⟩]

/-- Embedding of `TimeResult` (time/server.py lines 21-24). -/
structure TimeResult where
  timezone : String
  datetime : String
  is_dst : Bool
  deriving DecidableEq, Repr

/-- Embedding of `TimeConversionResult` (time/server.py lines 27-30). -/
structure TimeConversionResult where
  source : TimeResult
  target : TimeResult
  time_difference : String
  deriving DecidableEq, Repr

/-- Numeric value of an ASCII digit. -/
def digitVal (c : Char) : Nat := c.toNat - '0'.toNat

/-- Two-digit match of strptime's `%H` pattern `2[0-3]|[0-1]\d`. -/
def h2Val (a b : Char) : Option Nat :=
  if a = '2' ∧ (b = '0' ∨ b = '1' ∨ b = '2' ∨ b = '3') then some (20 + digitVal b)
  else if (a = '0' ∨ a = '1') ∧ b.isDigit then some (10 * digitVal a + digitVal b)
  else none

/-- One-digit match of strptime's `%H` fallback `\d`. -/
def h1Val (a : Char) : Option Nat := if a.isDigit then some (digitVal a) else none

/-- Two-digit match of strptime's `%M` pattern `[0-5]\d`. -/
def m2Val (c d : Char) : Option Nat :=
  if (c = '0' ∨ c = '1' ∨ c = '2' ∨ c = '3' ∨ c = '4' ∨ c = '5') ∧ d.isDigit then
    some (10 * digitVal c + digitVal d)
  else none

/-- One-digit match of strptime's `%M` fallback `\d`. -/
def m1Val (c : Char) : Option Nat := if c.isDigit then some (digitVal c) else none

/-- Success domain of `datetime.strptime(time_str, "%H:%M")`: CPython's
`_strptime` compiles `%H` to `2[0-3]|[0-1]\d|\d` and `%M` to `[0-5]\d|\d`
joined by a literal colon and requires the whole string to be consumed, so
the full matches are exactly the 3-to-5-character shapes below (digits
restricted to ASCII in this model). -/
def parseHM (s : String) : Option (Nat × Nat) :=
  match s.toList with
  | [a, b, ':', c, d] =>
    match h2Val a b, m2Val c d with
    | some h, some m => some (h, m)
    | _, _ => none
  | [a, b, ':', c] =>
    match h2Val a b, m1Val c with
    | some h, some m => some (h, m)
    | _, _ => none
  | [a, ':', c, d] =>
    match h1Val a, m2Val c d with
    | some h, some m => some (h, m)
    | _, _ => none
  | [a, ':', c] =>
    match h1Val a, m1Val c with
    | some h, some m => some (h, m)
    | _, _ => none
  | _ => none

/-- Rendering of a localized datetime (abstracting `isoformat` and the
current date; no checked property inspects this text). -/
def fmtDT (minutes off : Int) : String :=
  "T" ++ toString minutes ++ "@" ++ toString off

/-- Rendering of the offset difference (abstracting the Python float
formatting of `hours_difference`; no checked property inspects it). -/
def fmtOffsetDiff (diffMinutes : Int) : String :=
  toString diffMinutes ++ "m"

/-- Embedding of `TimeServer.convert_time` (time/server.py lines 60-107).
`pytz` is modelled as a partial map from timezone names to fixed UTC
offsets in minutes (`none` = `UnknownTimeZoneError`); DST is constantly
false in this fixed-offset model.  After the three guarded steps (source
timezone, target timezone, `strptime`), the remaining arithmetic and
formatting is total, so these are the only `ValueError` sites. -/
def convertTime (tzdb : String → Option Int) (sourceTz timeStr targetTz : String) :
    Except String TimeConversionResult :=
  match tzdb sourceTz with
  | none => .error ("Unknown source timezone: " ++ sourceTz)
  | some soff =>
    match tzdb targetTz with
    | none => .error ("Unknown target timezone: " ++ targetTz)
    | some toff =>
      match parseHM timeStr with
      | none => .error "Invalid time format. Expected HH:MM [24-hour format]"
      | some (h, m) =>
        let srcMinutes : Int := h * 60 + m
        let tgtMinutes : Int := srcMinutes + (toff - soff)
        .ok { source := { timezone := sourceTz, datetime := fmtDT srcMinutes soff,
                          is_dst := false },
              target := { timezone := targetTz, datetime := fmtDT tgtMinutes toff,
                          is_dst := false },
              time_difference := fmtOffsetDiff (toff - soff) }

/-- Embedding of `TimeServer.get_current_time` (time/server.py lines
45-58), with the current instant abstracted to a pre-rendered string. -/
def timeGetCurrentTime (tzdb : String → Option Int) (nowIso : String) (tz : String) :
    Except String TimeResult :=
  match tzdb tz with
  | none => .error ("Unknown timezone: " ++ tz)
  | some _ => .ok { timezone := tz, datetime := nowIso, is_dst := false }

/-- Abstract `json.dumps` of a `TimeResult`. -/
def renderTimeResult (r : TimeResult) : String :=
  "time-result:" ++ r.timezone ++ ":" ++ r.datetime

/-- Abstract `json.dumps` of a `TimeConversionResult`. -/
def renderTCR (r : TimeConversionResult) : String :=
  "conversion:" ++ r.source.timezone ++ ">" ++ r.target.timezone ++ ":" ++ r.time_difference

/-- The `try:` body of the time server's `call_tool` (time/server.py lines
162-186): dispatch on the tool name (`if not timezone` makes a missing or
empty timezone argument an error), unknown names raise
`ValueError("Unknown tool: ...")`. -/
def timeCallToolInner (tzdb : String → Option Int) (nowIso : String) (name : String)
    (args : List (String × String)) : Except String (List TextContent) :=
  if name = "get_current_time" then
    let tz := (args.lookup "timezone").getD ""
    if tz = "" then .error "Missing required argument: timezone"
    else
      match timeGetCurrentTime tzdb nowIso tz with
      | .error m => .error m
      | .ok r => .ok [⟨renderTimeResult r⟩]
  else if name = "convert_time" then
    if ¬ ((args.lookup "source_timezone").isSome ∧ (args.lookup "time").isSome ∧
        (args.lookup "target_timezone").isSome) then
      .error "Missing required arguments"
    else
      match convertTime tzdb ((args.lookup "source_timezone").getD "")
          ((args.lookup "time").getD "") ((args.lookup "target_timezone").getD "") with
      | .error m => .error m
      | .ok r => .ok [⟨renderTCR r⟩]
  else .error ("Unknown tool: " ++ name)

/-- Embedding of the time server's `call_tool` (time/server.py lines
157-189): the whole body is wrapped in `try/except Exception`, which
re-raises everything as
`ValueError("Error processing mcp-server-time query: ...")`. -/
def timeCallTool (tzdb : String → Option Int) (nowIso : String) (name : String)
    (args : List (String × String)) : Except String (List TextContent) :=
  match timeCallToolInner tzdb nowIso name args with
  | .ok l => .ok l
  | .error m => .error ("Error processing mcp-server-time query: " ++ m)

/-- Embedding of the fetch server's `call_tool` (fetch/server.py lines
148-158), with the robots.txt check and the HTTP fetch as oracles.  The
`name` parameter is bound but never examined by the source handler: any
tool name proceeds straight to the URL fetch. -/
def fetchCallTool (robotsOk : String → Except String Unit)
    (fetchUrl : String → Except String String) (ignoreRobots : Bool)
    (name : String) (args : List (String × String)) :
    Except String (List TextContent) :=
  let url := (args.lookup "url").getD ""
  if url = "" then .error "URL is required"
  else
    match (if ignoreRobots then Except.ok () else robotsOk url) with
    | .error m => .error m
    | .ok _ =>
      match fetchUrl url with
      | .error m => .error m
      | .ok content => .ok [⟨"Contents of " ++ url ++ ":\n" ++ content⟩]

/-- The sort key takes exactly the values 0..3, determined by the three
special table names. -/
theorem sortKey_cases (x : String) :
    (x = "customers" ∧ sortKey x = 0) ∨ (x = "policies" ∧ sortKey x = 1) ∨
    (x = "claims" ∧ sortKey x = 2) ∨
    (x ≠ "customers" ∧ x ≠ "policies" ∧ x ≠ "claims" ∧ sortKey x = 3) := by
  by_cases h1 : x = "customers"
  · exact Or.inl ⟨h1, by simp [sortKey, pyIndex, tableOrder, h1]⟩
  · by_cases h2 : x = "policies"
    · exact Or.inr (Or.inl ⟨h2, by simp [sortKey, pyIndex, tableOrder, h2]⟩)
    · by_cases h3 : x = "claims"
      · exact Or.inr (Or.inr (Or.inl ⟨h3, by simp [sortKey, pyIndex, tableOrder, h3]⟩))
      · refine Or.inr (Or.inr (Or.inr ⟨h1, h2, h3, ?_⟩))
        have h1' : ¬("customers" = x) := fun h => h1 h.symm
        have h2' : ¬("policies" = x) := fun h => h2 h.symm
        have h3' : ¬("claims" = x) := fun h => h3 h.symm
        simp [sortKey, pyIndex, tableOrder, h1', h2', h3']

/-- The tables of one sort-key rank, in request order. -/
def keyFilter (k : Nat) (l : List String) : List String :=
  l.filter (fun x => sortKey x = k)

theorem keyFilter_key (k : Nat) (l : List String) :
    ∀ b ∈ keyFilter k l, sortKey b = k := by
  intro b hb
  have := List.of_mem_filter hb
  simpa using this

theorem insertByKey_append_lt (a : String) :
    ∀ (xs ys : List String), (∀ b ∈ xs, sortKey b < sortKey a) →
      insertByKey a (xs ++ ys) = xs ++ insertByKey a ys := by
  intro xs
  induction xs with
  | nil => intro ys _; rfl
  | cons b l ih =>
    intro ys h
    have hb : sortKey b < sortKey a := h b (List.mem_cons_self b l)
    simp only [List.cons_append, insertByKey, if_pos hb, List.append_eq]
    rw [ih ys (fun c hc => h c (List.mem_cons_of_mem b hc))]

theorem insertByKey_front (a : String) :
    ∀ ys : List String, (∀ b ∈ ys, sortKey a ≤ sortKey b) →
      insertByKey a ys = a :: ys := by
  intro ys h
  cases ys with
  | nil => rfl
  | cons b l =>
    have hb : sortKey a ≤ sortKey b := h b (List.mem_cons_self b l)
    simp only [insertByKey, if_neg (Nat.not_lt.mpr hb)]

/-- Stable insertion of one element into the rank-decomposed list lands at
the back of its own rank block. -/
theorem insertByKey_filters (a : String) (l : List String) :
    insertByKey a (keyFilter 0 l ++ (keyFilter 1 l ++ (keyFilter 2 l ++ keyFilter 3 l))) =
      keyFilter 0 (a :: l) ++
        (keyFilter 1 (a :: l) ++ (keyFilter 2 (a :: l) ++ keyFilter 3 (a :: l))) := by
  rcases sortKey_cases a with ⟨h, hk⟩ | ⟨h, hk⟩ | ⟨h, hk⟩ | ⟨h1, h2, h3, hk⟩
  · rw [insertByKey_front a _ (fun b _ => by omega)]
    simp [keyFilter, List.filter_cons, hk]
  · rw [insertByKey_append_lt a _ _
      (fun b hb => by have := keyFilter_key 0 l b hb; omega)]
    rw [insertByKey_front a _ (fun b hb => by
      rcases List.mem_append.mp hb with h' | h'
      · have := keyFilter_key 1 l b h'; omega
      · rcases List.mem_append.mp h' with h'' | h''
        · have := keyFilter_key 2 l b h''; omega
        · have := keyFilter_key 3 l b h''; omega)]
    simp [keyFilter, List.filter_cons, hk]
  · rw [insertByKey_append_lt a _ _
      (fun b hb => by have := keyFilter_key 0 l b hb; omega)]
    rw [insertByKey_append_lt a _ _
      (fun b hb => by have := keyFilter_key 1 l b hb; omega)]
    rw [insertByKey_front a _ (fun b hb => by
      rcases List.mem_append.mp hb with h' | h'
      · have := keyFilter_key 2 l b h'; omega
      · have := keyFilter_key 3 l b h'; omega)]
    simp [keyFilter, List.filter_cons, hk]
  · rw [insertByKey_append_lt a _ _
      (fun b hb => by have := keyFilter_key 0 l b hb; omega)]
    rw [insertByKey_append_lt a _ _
      (fun b hb => by have := keyFilter_key 1 l b hb; omega)]
    rw [insertByKey_append_lt a _ _
      (fun b hb => by have := keyFilter_key 2 l b hb; omega)]
    rw [insertByKey_front a _ (fun b hb => by
      have := keyFilter_key 3 l b hb; omega)]
    simp [keyFilter, List.filter_cons, hk]

/-- The stable sort by rank is exactly the concatenation of the four rank
blocks, each in request order. -/
theorem ssortByKey_eq_filters (l : List String) :
    ssortByKey l =
      keyFilter 0 l ++ (keyFilter 1 l ++ (keyFilter 2 l ++ keyFilter 3 l)) := by
  induction l with
  | nil => rfl
  | cons a l ih =>
    simp only [ssortByKey, ih]
    exact insertByKey_filters a l

theorem keyFilter_zero (l : List String) :
    keyFilter 0 l = l.filter (fun x => x = "customers") := by
  apply List.filter_congr
  intro x _
  rcases sortKey_cases x with ⟨h, hk⟩ | ⟨h, hk⟩ | ⟨h, hk⟩ | ⟨h1, h2, h3, hk⟩
  · subst h; simp [hk]
  · subst h; simp [hk]
  · subst h; simp [hk]
  · simp [hk, h1]

theorem keyFilter_one (l : List String) :
    keyFilter 1 l = l.filter (fun x => x = "policies") := by
  apply List.filter_congr
  intro x _
  rcases sortKey_cases x with ⟨h, hk⟩ | ⟨h, hk⟩ | ⟨h, hk⟩ | ⟨h1, h2, h3, hk⟩
  · subst h; simp [hk]
  · subst h; simp [hk]
  · subst h; simp [hk]
  · simp [hk, h2]

theorem keyFilter_two (l : List String) :
    keyFilter 2 l = l.filter (fun x => x = "claims") := by
  apply List.filter_congr
  intro x _
  rcases sortKey_cases x with ⟨h, hk⟩ | ⟨h, hk⟩ | ⟨h, hk⟩ | ⟨h1, h2, h3, hk⟩
  · subst h; simp [hk]
  · subst h; simp [hk]
  · subst h; simp [hk]
  · simp [hk, h3]

theorem keyFilter_three (l : List String) :
    keyFilter 3 l = l.filter (fun x => x ∉ tableOrder) := by
  apply List.filter_congr
  intro x _
  rcases sortKey_cases x with ⟨h, hk⟩ | ⟨h, hk⟩ | ⟨h, hk⟩ | ⟨h1, h2, h3, hk⟩
  · subst h; simp [hk, tableOrder]
  · subst h; simp [hk, tableOrder]
  · subst h; simp [hk, tableOrder]
  · simp [hk, h1, h2, h3, tableOrder]

/-- C3: for every `generate_custom_tables` request,
`DataGenServer.handle_generate_tables` generates the requested tables in
the order computed by `orderedTables` (server.py lines 362-365), and that
order is exactly: all requested `customers` entries, then all `policies`
entries, then all `claims` entries, then every table outside
`table_order`, each block keeping its original request order (the sort is
stable).  In particular a default child table is generated after its
parent table within the same request. -/
theorem c3_orderedTables_blocks (tables : List String) :
    orderedTables tables =
      tables.filter (fun x => x = "customers") ++
        (tables.filter (fun x => x = "policies") ++
          (tables.filter (fun x => x = "claims") ++
            tables.filter (fun x => x ∉ tableOrder))) := by
  rw [orderedTables, ssortByKey_eq_filters, keyFilter_zero, keyFilter_one,
    keyFilter_two, keyFilter_three]

/-- Success test for an `Except` result (a raised exception is `error`). -/
def exceptIsOk {ε α : Type} : Except ε α → Bool
  | .ok _ => true
  | .error _ => false

instance exceptDecEq {ε α : Type} [DecidableEq ε] [DecidableEq α] :
    DecidableEq (Except ε α) := fun x y =>
  match x, y with
  | .error a, .error b =>
    if h : a = b then .isTrue (by rw [h]) else .isFalse (by simp [h])
  | .ok a, .ok b =>
    if h : a = b then .isTrue (by rw [h]) else .isFalse (by simp [h])
  | .error _, .ok _ => .isFalse (by simp)
  | .ok _, .error _ => .isFalse (by simp)

/-- C7: `TimeServer.convert_time` raises `ValueError` iff the source
timezone is unknown, or the target timezone is unknown, or the time string
does not parse as 24-hour `%H:%M`; on every other input it succeeds and
the result's `source`/`target` carry the given timezone names. -/
theorem c7_convert_time_errors (tzdb : String → Option Int) (s t g : String) :
    ((exceptIsOk (convertTime tzdb s t g) = true) ↔
      ((tzdb s).isSome ∧ (tzdb g).isSome ∧ (parseHM t).isSome)) ∧
    (∀ r, convertTime tzdb s t g = .ok r →
      r.source.timezone = s ∧ r.target.timezone = g) := by
  constructor
  · rcases hs : tzdb s with _ | soff
    · simp [convertTime, hs, exceptIsOk]
    · rcases hg : tzdb g with _ | toff
      · simp [convertTime, hs, hg, exceptIsOk]
      · rcases hp : parseHM t with _ | p
        · simp [convertTime, hs, hg, hp, exceptIsOk]
        · rcases p with ⟨hh, mm⟩
          simp [convertTime, hs, hg, hp, exceptIsOk]
  · intro r hr
    rcases hs : tzdb s with _ | soff
    · simp [convertTime, hs] at hr
    · rcases hg : tzdb g with _ | toff
      · simp [convertTime, hs, hg] at hr
      · rcases hp : parseHM t with _ | p
        · simp [convertTime, hs, hg, hp] at hr
        · rcases p with ⟨hh, mm⟩
          simp only [convertTime, hs, hg, hp, Except.ok.injEq] at hr
          subst hr
          exact ⟨rfl, rfl⟩

/-- Every successful branch of the sqlite tool dispatch returns exactly
one `TextContent`. -/
theorem sqliteHandleInner_ok_len (ex : String → Except PyErr String)
    (notify : Except PyErr Unit) (name : String)
    (args : Option (List (String × String))) (l : List TextContent)
    (h : sqliteHandleInner ex notify name args = .ok l) : l.length = 1 := by
  simp only [sqliteHandleInner] at h
  repeat' split at h
  all_goals first
  | (cases h; rfl)
  | simp_all

/-- C5: the sqlite server's `handle_call_tool` never propagates an
exception: it always returns exactly one `TextContent`; when the body
raises a `sqlite3.Error` the text is `Database error: ...`, and when it
raises any other exception (missing argument, disallowed query, unknown
tool, database wrapper failures) the text is `Error: ...`; in particular an
unknown tool name with non-empty arguments yields
`Error: Unknown tool: <name>`. -/
theorem c5_sqlite_catch_all (ex : String → Except PyErr String) (notify : Except PyErr Unit)
    (name : String) (args : Option (List (String × String))) :
    (sqliteHandleCallTool ex notify name args).length = 1 ∧
    (∀ m, sqliteHandleInner ex notify name args = .error (.sqlErr m) →
      sqliteHandleCallTool ex notify name args = [⟨"Database error: " ++ m⟩]) ∧
    (∀ m, sqliteHandleInner ex notify name args = .error (.otherErr m) →
      sqliteHandleCallTool ex notify name args = [⟨"Error: " ++ m⟩]) ∧
    (∀ l, name ∉ ["list_tables", "describe_table", "append_insight", "read_query",
        "write_query", "create_table"] → args = some l → l ≠ [] →
      sqliteHandleCallTool ex notify name args = [⟨"Error: Unknown tool: " ++ name⟩]) := by
  refine ⟨?_, ?_, ?_, ?_⟩
  · unfold sqliteHandleCallTool
    rcases hres : sqliteHandleInner ex notify name args with pe | l
    · cases pe <;> simp [sqliteErrText]
    · simpa using sqliteHandleInner_ok_len ex notify name args l hres
  · intro m hm
    unfold sqliteHandleCallTool
    rw [hm]
    rfl
  · intro m hm
    unfold sqliteHandleCallTool
    rw [hm]
    rfl
  · intro l hname hargs hne
    simp only [List.mem_cons, List.not_mem_nil, or_false, not_or] at hname
    obtain ⟨n1, n2, n3, n4, n5, n6⟩ := hname
    have hinner : sqliteHandleInner ex notify name args =
        .error (.otherErr ("Unknown tool: " ++ name)) := by
      subst hargs
      simp [sqliteHandleInner, n1, n2, n3, n4, n5, n6, hne]
    unfold sqliteHandleCallTool
    rw [hinner]
    rfl

theorem randint_ok_bounds (lo hi : Int) (r : Nat) (n : Int)
    (h : randint lo hi r = .ok n) : lo ≤ n ∧ n < hi := by
  simp only [randint] at h
  split at h
  · rename_i hlt
    simp only [Except.ok.injEq] at h
    subst h
    have h1 : (0 : Int) ≤ (r : Int) % (hi - lo) := Int.emod_nonneg _ (by omega)
    have h2 : (r : Int) % (hi - lo) < hi - lo := Int.emod_lt_of_pos _ (by omega)
    omega
  · exact absurd h (by simp)

theorem randint_hits_top (lo hi : Int) (hlt : lo < hi) :
    randint lo hi (hi - 1 - lo).toNat = .ok (hi - 1) := by
  simp only [randint, if_pos hlt]
  congr 1
  have h0 : (((hi - 1 - lo).toNat : Nat) : Int) = hi - 1 - lo :=
    Int.toNat_of_nonneg (by omega)
  rw [h0, Int.emod_eq_of_lt (by omega) (by omega)]
  omega

theorem randintList_mem_bounds (lo hi : Int) :
    ∀ (rows : Nat) (e : Ent) (vs : List Int),
      randintList lo hi e rows = .ok vs → ∀ v ∈ vs, lo ≤ v ∧ v < hi := by
  intro rows
  induction rows with
  | zero =>
    intro e vs h
    simp only [randintList, Except.ok.injEq] at h
    subst h
    simp
  | succ r ih =>
    intro e vs h
    simp only [randintList] at h
    rcases h1 : randint lo hi (headE e) with m | n
    · rw [h1] at h; exact absurd h (by simp)
    · rw [h1] at h
      simp only at h
      rcases h2 : randintList lo hi (tailE e) r with m | ns
      · rw [h2] at h; exact absurd h (by simp)
      · rw [h2] at h
        simp only [Except.ok.injEq] at h
        subst h
        intro v hv
        rcases List.mem_cons.mp hv with rfl | hv'
        · exact randint_ok_bounds lo hi (headE e) v h1
        · exact ih (tailE e) ns h2 v hv'

/-- One fresh-draw step of the unique-ID attempt loop. -/
theorem genUniqueIdAux_step_fresh (table : String) (spec : ColSpec) (ids : IdStore)
    (e : Ent) (fuel : Nat) (n : Int)
    (hty : spec.type_ = "integer" ∨ spec.type_ = "int")
    (hpre : spec.pfx.getD "" = "")
    (hr : randint (spec.min?.getD 1) (spec.max?.getD 1000000 + 1) (headE e) = .ok n)
    (hmem : Value.npInt n ∉ ids table) :
    genUniqueIdAux table spec ids e (fuel + 1) =
      .ok (.npInt n, setIds ids table (Value.npInt n :: ids table), tailE e) := by
  simp only [genUniqueIdAux, if_pos hty, hr, hpre]
  simp [hmem]

/-- C10: integer bounds are treated inconsistently between the two
generation paths.  Values of a non-ID integer column drawn through
`_map_type_to_generator`'s numpy-int generator (`runGen (.numpyInt lo hi)`,
shared by the explicit-`numpy` branch and the default integer branch) or
through `DataGenerator.generate_table` satisfy `lo ≤ v ≤ hi - 1` — the
declared max is never produced — whereas integer IDs from
`_generate_unique_id` satisfy `lo ≤ v ≤ hi`, and the declared max is
reachable there. -/
theorem c10_bound_inconsistency (lo hi : Int) :
    (∀ (ids : IdStore) (e : Ent) (v : Value) (ids' : IdStore) (e' : Ent),
      runGen (.numpyInt lo hi) ids e = .ok (v, ids', e') →
      ∃ n : Int, v = .pyInt n ∧ lo ≤ n ∧ n ≤ hi - 1) ∧
    (∀ (spec : ColSpec) (rows : Nat) (e : Ent) (vs : List Int),
      spec.min? = some lo → spec.max? = some hi →
      generateTableNumpyIntColumn spec rows e = .ok vs →
      ∀ v ∈ vs, lo ≤ v ∧ v ≤ hi - 1) ∧
    (∀ (table : String) (spec : ColSpec) (ids : IdStore) (e : Ent) (v : Value)
        (ids' : IdStore) (e' : Ent),
      (spec.type_ = "integer" ∨ spec.type_ = "int") → spec.pfx.getD "" = "" →
      spec.min? = some lo → spec.max? = some hi →
      genUniqueId table spec ids e = .ok (v, ids', e') →
      ∃ n : Int, v = .npInt n ∧ lo ≤ n ∧ n ≤ hi) ∧
    (lo ≤ hi → ∀ (table : String) (spec : ColSpec),
      (spec.type_ = "integer" ∨ spec.type_ = "int") → spec.pfx.getD "" = "" →
      spec.min? = some lo → spec.max? = some hi →
      ∃ (e : Ent) (ids' : IdStore) (e' : Ent),
        genUniqueId table spec (fun _ => []) e = .ok (.npInt hi, ids', e')) := by
  refine ⟨?_, ?_, ?_, ?_⟩
  · intro ids e v ids' e' h
    have hrg : runGen (.numpyInt lo hi) ids e =
        (match randint lo hi (headE e) with
         | .error m => .error m
         | .ok n => .ok (.pyInt n, ids, tailE e)) := rfl
    rw [hrg] at h
    rcases hr : randint lo hi (headE e) with m | n
    · rw [hr] at h; exact absurd h (by simp)
    · rw [hr] at h
      simp only [Except.ok.injEq, Prod.mk.injEq] at h
      obtain ⟨hv, _, _⟩ := h
      subst hv
      have := randint_ok_bounds lo hi (headE e) n hr
      exact ⟨n, rfl, by omega, by omega⟩
  · intro spec rows e vs hmin hmax h
    intro v hv
    have := randintList_mem_bounds lo hi rows e vs
      (by simpa [generateTableNumpyIntColumn, hmin, hmax] using h) v hv
    omega
  · intro table spec ids e v ids' e' hty hpre hmin hmax h
    obtain ⟨n, hn, h1, h2⟩ := genUniqueIdAux_ok_int table spec hty hpre 100 ids e v ids' e' h
    exact ⟨n, hn, by simp [hmin] at h1; exact h1, by simp [hmax] at h2; exact h2⟩
  · intro hle table spec hty hpre hmin hmax
    have hr : randint (spec.min?.getD 1) (spec.max?.getD 1000000 + 1)
        ((hi - lo).toNat) = .ok hi := by
      rw [hmin, hmax]
      simp only [Option.getD_some]
      have h1 : lo < hi + 1 := by omega
      have h2 : hi + 1 - 1 - lo = hi - lo := by omega
      have h3 : hi + 1 - 1 = hi := by omega
      have := randint_hits_top lo (hi + 1) h1
      rw [h2, h3] at this
      exact this
    have hstep := genUniqueIdAux_step_fresh table spec (fun _ => [])
      (fun _ => (hi - lo).toNat) 99 hi hty hpre (by simpa [headE] using hr) (by simp)
    exact ⟨fun _ => (hi - lo).toNat, _, _, by
      show genUniqueIdAux table spec (fun _ => []) (fun _ => (hi - lo).toNat) 100 = _
      rw [show (100 : Nat) = 99 + 1 from rfl]
      exact hstep⟩

/-- Robots.txt oracle that always allows fetching (for concrete runs). -/
def demoRobotsOk : String → Except String Unit := fun _ => .ok ()

/-- HTTP fetch oracle returning a fixed page (for concrete runs). -/
def demoFetcher : String → Except String String := fun _ => .ok "PAGE"

/-- C6 counterexample: the fetch server's `call_tool` does not reject
undeclared tool names.  Called with a name that is not the declared
`fetch` tool but with a `url` argument, it raises no error and invokes the
underlying fetch (the returned text contains the fetched page). -/
theorem c6_fetch_unknown_name_counterexample :
    fetchCallTool demoRobotsOk demoFetcher false "definitely_not_a_declared_tool"
        [("url", "http://example.com")] =
      .ok [⟨"Contents of http://example.com:\nPAGE"⟩] := by
  rfl

/-- C6 (amended): for the datagen and time adapters, calling the tool
handler with an undeclared tool name raises an error mentioning the
unknown tool (for every oracle, so no library function is consulted);
the fetch adapter's `call_tool` ignores the tool name entirely and
proceeds to fetch whenever a non-empty `url` argument is present. -/
theorem c6_unknown_tool_amended (name : String) :
    (∀ (args : DatagenArgs) (e : Ent),
      name ≠ "generate_custom_tables" → name ≠ "generate_insurance_data" →
      callToolDatagen name args e = .error ("Unknown tool: " ++ name)) ∧
    (∀ (tzdb : String → Option Int) (nowIso : String) (args : List (String × String)),
      name ≠ "get_current_time" → name ≠ "convert_time" →
      timeCallTool tzdb nowIso name args =
        .error ("Error processing mcp-server-time query: " ++ ("Unknown tool: " ++ name))) ∧
    (∀ (robotsOk : String → Except String Unit) (fetchUrl : String → Except String String)
        (args : List (String × String)) (url content : String),
      args.lookup "url" = some url → url ≠ "" →
      robotsOk url = .ok () → fetchUrl url = .ok content →
      fetchCallTool robotsOk fetchUrl false name args =
        .ok [⟨"Contents of " ++ url ++ ":\n" ++ content⟩]) := by
  refine ⟨?_, ?_, ?_⟩
  · intro args e h1 h2
    simp [callToolDatagen, h1, h2]
  · intro tzdb nowIso args h1 h2
    simp [timeCallTool, timeCallToolInner, h1, h2]
  · intro robotsOk fetchUrl args url content hurl hne hrob hf
    simp [fetchCallTool, hurl, hne, hrob, hf]

/-- Concrete run of the amended C6 statement. -/
theorem c6_unknown_tool_amended_witness :
    callToolDatagen "bogus_tool" ⟨[], 1000, fun _ => none⟩ (fun _ => 0) =
        .error ("Unknown tool: " ++ "bogus_tool") ∧
    timeCallTool (fun _ => none) "now" "bogus_tool" [] =
        .error ("Error processing mcp-server-time query: " ++
          ("Unknown tool: " ++ "bogus_tool")) ∧
    fetchCallTool demoRobotsOk demoFetcher false "bogus_tool" [("url", "http://e.com")] =
        .ok [⟨"Contents of " ++ "http://e.com" ++ ":\n" ++ "PAGE"⟩] :=
  ⟨(c6_unknown_tool_amended "bogus_tool").1 ⟨[], 1000, fun _ => none⟩ (fun _ => 0)
      (by decide) (by decide),
   (c6_unknown_tool_amended "bogus_tool").2.1 (fun _ => none) "now" [] (by decide) (by decide),
   (c6_unknown_tool_amended "bogus_tool").2.2 demoRobotsOk demoFetcher
      [("url", "http://e.com")] "http://e.com" "PAGE" rfl (by decide) rfl rfl⟩

/-- Concrete run of the sqlite catch-all behaviour. -/
theorem c5_sqlite_catch_all_witness :
    sqliteHandleCallTool (fun _ => .error (.sqlErr "boom")) (.ok ()) "read_query"
        (some [("query", "SELECT 1")]) = [⟨"Database error: " ++ "boom"⟩] ∧
    sqliteHandleCallTool (fun _ => .ok "r") (.ok ()) "read_query"
        (some [("query", "DROP TABLE x")]) =
      [⟨"Error: " ++ "Only SELECT queries are allowed for read_query"⟩] ∧
    sqliteHandleCallTool (fun _ => .ok "r") (.ok ()) "mystery_tool"
        (some [("x", "y")]) = [⟨"Error: Unknown tool: " ++ "mystery_tool"⟩] :=
  ⟨(c5_sqlite_catch_all (fun _ => .error (.sqlErr "boom")) (.ok ()) "read_query"
      (some [("query", "SELECT 1")])).2.1 "boom" (by decide),
   (c5_sqlite_catch_all (fun _ => .ok "r") (.ok ()) "read_query"
      (some [("query", "DROP TABLE x")])).2.2.1
      "Only SELECT queries are allowed for read_query" (by decide),
   (c5_sqlite_catch_all (fun _ => .ok "r") (.ok ()) "mystery_tool"
      (some [("x", "y")])).2.2.2 [("x", "y")] (by decide) rfl (by decide)⟩

/-- A two-zone timezone database for concrete runs. -/
def demoTzdb : String → Option Int := fun s =>
  if s = "UTC" then some 0 else if s = "Asia/Kathmandu" then some 345 else none

/-- Concrete run of `convert_time` on known zones and a valid time. -/
theorem c7_convert_time_witness :
    exceptIsOk (convertTime demoTzdb "UTC" "12:34" "Asia/Kathmandu") = true ∧
    ((⟨⟨"UTC", fmtDT 754 0, false⟩, ⟨"Asia/Kathmandu", fmtDT 1099 345, false⟩,
        fmtOffsetDiff 345⟩ : TimeConversionResult).source.timezone = "UTC" ∧
     (⟨⟨"UTC", fmtDT 754 0, false⟩, ⟨"Asia/Kathmandu", fmtDT 1099 345, false⟩,
        fmtOffsetDiff 345⟩ : TimeConversionResult).target.timezone = "Asia/Kathmandu") :=
  ⟨(c7_convert_time_errors demoTzdb "UTC" "12:34" "Asia/Kathmandu").1.mpr
      ⟨by decide, by decide, by decide⟩,
   (c7_convert_time_errors demoTzdb "UTC" "12:34" "Asia/Kathmandu").2 _ (by rfl)⟩

/-- Integer ID spec with range `[5, 10]` for concrete runs. -/
def c10Spec : ColSpec := { type_ := "int", min? := some 5, max? := some 10 }

/-- Concrete runs of both integer generation paths at range `[5, 10]`. -/
theorem c10_bound_inconsistency_witness :
    (∃ n : Int, Value.pyInt 5 = .pyInt n ∧ 5 ≤ n ∧ n ≤ 10 - 1) ∧
    (∀ v ∈ [(5 : Int), 5], 5 ≤ v ∧ v ≤ 10 - 1) ∧
    (∃ n : Int, Value.npInt 5 = .npInt n ∧ 5 ≤ n ∧ n ≤ 10) ∧
    (∃ (e : Ent) (ids' : IdStore) (e' : Ent),
      genUniqueId "t" c10Spec (fun _ => []) e = .ok (.npInt 10, ids', e')) := by
  refine ⟨?_, ?_, ?_, ?_⟩
  · exact (c10_bound_inconsistency 5 10).1 (fun _ => []) (fun _ => 0) (.pyInt 5) _ _ (by rfl)
  · exact (c10_bound_inconsistency 5 10).2.1 c10Spec 2 (fun _ => 0) [5, 5] rfl rfl (by rfl)
  · exact (c10_bound_inconsistency 5 10).2.2.1 "t" c10Spec (fun _ => []) (fun _ => 0)
      (.npInt 5) _ _ (Or.inr rfl) rfl rfl rfl (by rfl)
  · exact (c10_bound_inconsistency 5 10).2.2.2 (by decide) "t" c10Spec (Or.inr rfl) rfl rfl rfl

/-- C8: `_generate_unique_id` makes at most 100 attempts (the loop is
`genUniqueIdAux` at fuel `max_attempts = 100`), and for an integer ID
column without a prefix, requesting more rows than the inclusive range
`[min, max]` has distinct values (`max - min + 1`, the possible results of
`np.random.randint(min, max + 1)`) forces the column generation — and, for
a schema consisting of that column, `generate_synthetic_data` itself — to
raise the `Failed to generate unique ID ...` `ValueError`: once every
range value is recorded, all 100 attempts collide. -/
theorem c8_unique_id_exhaustion (table : String) (spec : ColSpec)
    (hty : spec.type_ = "integer" ∨ spec.type_ = "int")
    (hpre : spec.pfx.getD "" = "")
    (hrange : spec.min?.getD 1 ≤ spec.max?.getD 1000000) :
    (∀ (ids : IdStore) (e : Ent),
      genUniqueId table spec ids e = genUniqueIdAux table spec ids e 100) ∧
    (∀ rows : Nat, (rows : Int) > spec.max?.getD 1000000 - spec.min?.getD 1 + 1 →
      ∀ (ids : IdStore) (e : Ent),
        genUniqueIds table spec ids e rows = .error (failUniqueMsg table)) ∧
    (∀ (colName : String) (rows : Nat),
      (rows : Int) > spec.max?.getD 1000000 - spec.min?.getD 1 + 1 →
      strEndsWith colName "_id" = true → spec.correlated.getD false = false →
      ∀ (defaults : String → Option Schema) (ids : IdStore) (e : Ent),
        generateSyntheticData defaults table [(colName, spec)] rows ids e =
          .error (failUniqueMsg table)) := by
  refine ⟨fun ids e => rfl, ?_, ?_⟩
  · intro rows hrows ids e
    exact genUniqueIds_fail table spec hty hpre hrange rows hrows ids e
  · intro colName rows hrows hends hcorr defaults ids e
    have hfail : ∀ (ids : IdStore) (e : Ent),
        genUniqueIds table spec ids e rows = .error (failUniqueMsg table) :=
      fun ids e => genUniqueIds_fail table spec hty hpre hrange rows hrows ids e
    have hfp : ∀ (ids : IdStore) (e : Ent),
        firstPass table rows [(colName, spec)] [] ids e = .error (failUniqueMsg table) := by
      intro ids1 e1
      have fc : firstPassCol table rows colName spec [] ids1 e1 =
          .error (failUniqueMsg table) := by
        unfold firstPassCol
        rw [hfail ids1 e1]
        simp [hcorr, hends]
      simp only [firstPass, fc]
    cases hd : defaults table with
    | none =>
      have hps : preStep defaults table [(colName, spec)] rows ids e = .ok ([], ids, e) := by
        unfold preStep
        rw [hd]
      unfold generateSyntheticData
      rw [hps]
      simp only
      rw [hfp ids e]
    | some s =>
      by_cases hidf : (strDropRight table 1 ++ "_id") = colName
      · have hps : preStep defaults table [(colName, spec)] rows ids e =
            .error (failUniqueMsg table) := by
          unfold preStep
          rw [hd]
          have hb : (strDropRight table 1 ++ "_id" == colName) = true := beq_iff_eq.mpr hidf
          simp only [List.lookup, hb, hfail ids e]
        unfold generateSyntheticData
        rw [hps]
      · have hps : preStep defaults table [(colName, spec)] rows ids e = .ok ([], ids, e) := by
          unfold preStep
          rw [hd]
          have hb : (strDropRight table 1 ++ "_id" == colName) = false :=
            beq_eq_false_iff_ne.mpr hidf
          simp only [List.lookup, hb]
        unfold generateSyntheticData
        rw [hps]
        simp only
        rw [hfp ids e]

theorem lookup_map_replace {α : Type} (c c' : String) (v : α) (h : c' ≠ c) :
    ∀ d : List (String × α),
      (d.map (fun p => if p.1 = c then (c, v) else p)).lookup c' = d.lookup c' := by
  intro d
  induction d with
  | nil => rfl
  | cons p rest ih =>
    obtain ⟨k, w⟩ := p
    simp only [List.map_cons]
    by_cases hk : k = c
    · subst hk
      rw [if_pos rfl]
      simp only [List.lookup]
      rw [show (c' == k) = false from beq_eq_false_iff_ne.mpr h]
      exact ih
    · rw [if_neg hk]
      simp only [List.lookup]
      cases c' == k
      · exact ih
      · rfl

theorem lookup_append_single_ne {α : Type} (c c' : String) (v : α) (h : c' ≠ c) :
    ∀ d : List (String × α), ((d ++ [(c, v)]).lookup c') = d.lookup c' := by
  intro d
  induction d with
  | nil => simp [List.lookup, beq_eq_false_iff_ne.mpr h]
  | cons p rest ih =>
    obtain ⟨k, w⟩ := p
    simp only [List.cons_append, List.lookup]
    cases c' == k
    · exact ih
    · rfl

theorem lookup_dictSet_ne {α : Type} (d : List (String × α)) (c c' : String) (v : α)
    (h : c' ≠ c) : (dictSet d c v).lookup c' = d.lookup c' := by
  unfold dictSet
  split
  · exact lookup_map_replace c c' v h d
  · exact lookup_append_single_ne c c' v h d

theorem lookup_map_replace_self {α : Type} (c : String) (v : α) :
    ∀ d : List (String × α), (d.lookup c).isSome = true →
      (d.map (fun p => if p.1 = c then (c, v) else p)).lookup c = some v := by
  intro d
  induction d with
  | nil => intro h; simp [List.lookup] at h
  | cons p rest ih =>
    intro h
    obtain ⟨k, w⟩ := p
    simp only [List.map_cons] at *
    by_cases hk : k = c
    · subst hk
      rw [if_pos rfl]
      simp [List.lookup]
    · have hck : (c == k) = false := beq_eq_false_iff_ne.mpr (fun hc => hk hc.symm)
      simp only [List.lookup, hck] at h
      rw [if_neg hk]
      simp only [List.lookup, hck]
      exact ih h

theorem lookup_append_single_self {α : Type} (c : String) (v : α) :
    ∀ d : List (String × α), d.lookup c = none → ((d ++ [(c, v)]).lookup c) = some v := by
  intro d
  induction d with
  | nil => simp [List.lookup]
  | cons p rest ih =>
    intro h
    obtain ⟨k, w⟩ := p
    simp only [List.lookup] at h
    simp only [List.cons_append, List.lookup]
    cases hbeq : c == k
    · rw [hbeq] at h
      exact ih h
    · rw [hbeq] at h
      exact absurd h (by simp)

theorem lookup_dictSet_self {α : Type} (d : List (String × α)) (c : String) (v : α) :
    (dictSet d c v).lookup c = some v := by
  unfold dictSet
  split
  · rename_i hs
    exact lookup_map_replace_self c v d hs
  · rename_i hs
    refine lookup_append_single_self c v d ?_
    rcases hl : d.lookup c with _ | w
    · rfl
    · exact absurd (by rw [hl]; rfl) hs

theorem strEndsWith_append_id (x : String) : strEndsWith (x ++ "_id") "_id" = true := by
  obtain ⟨l⟩ := x
  show startsWithChars (l ++ ['_', 'i', 'd']).reverse ['_', 'i', 'd'].reverse = true
  rw [List.reverse_append]
  simp [startsWithChars]

/-- Integer ID spec with the one-value range `[1, 1]` for concrete runs. -/
def c8Spec : ColSpec := { type_ := "integer", min? := some 1, max? := some 1 }

/-- Concrete exhaustion run: two rows requested from a one-value range. -/
theorem c8_unique_id_exhaustion_witness :
    genUniqueIds "books" c8Spec (fun _ => []) (fun _ => 0) 2 =
        .error (failUniqueMsg "books") ∧
    generateSyntheticData (fun _ => none) "books" [("book_id", c8Spec)] 2
        (fun _ => []) (fun _ => 0) = .error (failUniqueMsg "books") :=
  ⟨(c8_unique_id_exhaustion "books" c8Spec (Or.inl rfl) rfl (by decide)).2.1 2 (by decide)
      (fun _ => []) (fun _ => 0),
   (c8_unique_id_exhaustion "books" c8Spec (Or.inl rfl) rfl (by decide)).2.2 "book_id" 2
      (by decide) (by decide) rfl (fun _ => none) (fun _ => []) (fun _ => 0)⟩

/-- With the `correlated` key present (even as `False`), no `generator`
key, and `self.current_table` at its constant `""`,
`_map_type_to_generator` immediately raises the
`_extract_parent_table` `ValueError`. -/
theorem mapTypeToGenerator_correlated_key_raises (colName : String) (spec : ColSpec)
    (hcorr : spec.correlated = some false) (hgen : spec.generator = none) :
    mapTypeToGenerator currentTable colName spec =
      .error ("Invalid column name for parent table extraction: " ++ currentTable) := by
  have hext : extractParentTable currentTable =
      .error ("Invalid column name for parent table extraction: " ++ currentTable) := by
    decide
  simp [mapTypeToGenerator, hgen, hcorr, hext]

/-- A first-pass step on a column with a `correlated: False` spec, no
generator, and a non-`_id` name raises. -/
theorem firstPassCol_bad_raises (table : String) (rows : Nat) (colName : String)
    (spec : ColSpec) (data : TableData) (ids : IdStore) (e : Ent)
    (hcorr : spec.correlated = some false) (hgen : spec.generator = none)
    (hend : strEndsWith colName "_id" = false)
    (hlook : data.lookup colName = none) :
    firstPassCol table rows colName spec data ids e =
      .error ("Invalid column name for parent table extraction: " ++ currentTable) := by
  unfold firstPassCol
  rw [mapTypeToGenerator_correlated_key_raises colName spec hcorr hgen]
  simp [hcorr, hend, hlook]

/-- A successful first-pass step on a column named `c` leaves every other
column's entry of the data dict unchanged. -/
theorem firstPassCol_lookup_other (table : String) (rows : Nat) (c : String) (s : ColSpec)
    (data : TableData) (ids : IdStore) (e : Ent) (d1 : TableData) (i1 : IdStore) (e1 : Ent)
    (col : String) (hc : col ≠ c)
    (h : firstPassCol table rows c s data ids e = .ok (d1, i1, e1)) :
    d1.lookup col = data.lookup col := by
  unfold firstPassCol at h
  split at h
  · simp only [Except.ok.injEq, Prod.mk.injEq] at h
    obtain ⟨h1, _, _⟩ := h
    subst h1
    rfl
  · split at h
    · split at h
      · exact absurd h (by simp)
      · simp only [Except.ok.injEq, Prod.mk.injEq] at h
        obtain ⟨h1, _, _⟩ := h
        subst h1
        exact lookup_dictSet_ne data c col _ hc
    · split at h
      · exact absurd h (by simp)
      · split at h
        · exact absurd h (by simp)
        · simp only [Except.ok.injEq, Prod.mk.injEq] at h
          obtain ⟨h1, _, _⟩ := h
          subst h1
          exact lookup_dictSet_ne data c col _ hc

/-- If the schema contains a `correlated: False`, generator-free,
non-`_id` column whose entry is not yet in `data`, while the remaining
schema keys are distinct, the first pass raises. -/
theorem firstPass_bad_col (table : String) (rows : Nat) (colName : String) (spec : ColSpec)
    (hcorr : spec.correlated = some false) (hgen : spec.generator = none)
    (hend : strEndsWith colName "_id" = false) :
    ∀ (l : Schema) (data : TableData) (ids : IdStore) (e : Ent),
      (colName, spec) ∈ l → (l.map Prod.fst).Nodup → data.lookup colName = none →
      exceptIsOk (firstPass table rows l data ids e) = false := by
  intro l
  induction l with
  | nil =>
    intro data ids e hmem
    simp at hmem
  | cons p rest ih =>
    intro data ids e hmem hnd hlook
    obtain ⟨c, s⟩ := p
    rcases List.mem_cons.mp hmem with heq | hmem'
    · cases heq
      have hfc := firstPassCol_bad_raises table rows colName spec data ids e
        hcorr hgen hend hlook
      simp only [firstPass, hfc]
      rfl
    · have hnd2 := hnd
      rw [List.map_cons] at hnd2
      obtain ⟨hnotin, hndrest⟩ := List.nodup_cons.mp hnd2
      have hcne : c ≠ colName := by
        intro hce
        subst hce
        have hin : (c, spec).1 ∈ rest.map Prod.fst := List.mem_map_of_mem Prod.fst hmem'
        exact hnotin hin
      rcases hfc : firstPassCol table rows c s data ids e with m | ⟨d1, i1, e1⟩
      · simp only [firstPass, hfc]
        rfl
      · have hl1 : d1.lookup colName = data.lookup colName :=
          firstPassCol_lookup_other table rows c s data ids e d1 i1 e1 colName
            (fun hx => hcne hx.symm) hfc
        simp only [firstPass, hfc]
        exact ih d1 i1 e1 hmem' hndrest (hl1.trans hlook)

/-- On success the pre-generation step only ever records the
`<singular>_id` column, so any non-`_id` column is still absent. -/
theorem preStep_ok_lookup (defaults : String → Option Schema) (table : String)
    (schema : Schema) (rows : Nat) (ids : IdStore) (e : Ent)
    (d0 : TableData) (i0 : IdStore) (e0 : Ent) (col : String)
    (hne : strEndsWith col "_id" = false)
    (h : preStep defaults table schema rows ids e = .ok (d0, i0, e0)) :
    d0.lookup col = none := by
  have hcol : ∀ x : String, col ≠ x ++ "_id" := by
    intro x hx
    rw [hx, strEndsWith_append_id] at hne
    exact absurd hne (by simp)
  unfold preStep at h
  split at h
  · simp only [Except.ok.injEq, Prod.mk.injEq] at h
    obtain ⟨h1, _, _⟩ := h
    subst h1
    rfl
  · dsimp only at h
    rcases hl : List.lookup (strDropRight table 1 ++ "_id") schema with _ | fspec
    · rw [hl] at h
      simp only [Except.ok.injEq, Prod.mk.injEq] at h
      obtain ⟨h1, _, _⟩ := h
      subst h1
      rfl
    · rw [hl] at h
      simp only at h
      rcases hg : genUniqueIds table fspec ids e rows with m | ⟨vs, ids1, e1⟩
      · rw [hg] at h
        exact absurd h (by simp)
      · rw [hg] at h
        simp only [Except.ok.injEq, Prod.mk.injEq] at h
        obtain ⟨h1, _, _⟩ := h
        subst h1
        show (dictSet [] (strDropRight table 1 ++ "_id") vs).lookup col = none
        rw [lookup_dictSet_ne _ _ _ _ (hcol (strDropRight table 1))]
        rfl

/-- C9: for every schema containing a column whose spec has the key
`correlated` with value `False`, no `generator` key, and a name not ending
in `_id`, `generate_synthetic_data` raises `ValueError` instead of
generating the column: the first pass treats it as non-correlated, but
`_map_type_to_generator` takes the `"correlated" in spec` branch and
immediately calls `_extract_parent_table` on `self.current_table`, which
is never updated from its initial `""` and so fails the `_id`-suffix
check. -/
theorem c9_correlated_false_raises (defaults : String → Option Schema) (table : String)
    (schema : Schema) (rows : Nat) (ids : IdStore) (e : Ent)
    (colName : String) (spec : ColSpec)
    (hmem : (colName, spec) ∈ schema)
    (hcorr : spec.correlated = some false)
    (hgen : spec.generator = none)
    (hend : strEndsWith colName "_id" = false)
    (hkeys : (schema.map Prod.fst).Nodup) :
    exceptIsOk (generateSyntheticData defaults table schema rows ids e) = false := by
  rcases hps : preStep defaults table schema rows ids e with m | ⟨d0, i0, e0⟩
  · unfold generateSyntheticData
    rw [hps]
    rfl
  · have hl0 : d0.lookup colName = none :=
      preStep_ok_lookup defaults table schema rows ids e d0 i0 e0 colName hend hps
    have hfp := firstPass_bad_col table rows colName spec hcorr hgen hend schema d0 i0 e0
      hmem hkeys hl0
    rcases hfp2 : firstPass table rows schema d0 i0 e0 with m | ok
    · unfold generateSyntheticData
      rw [hps]
      simp only
      rw [hfp2]
      rfl
    · rw [hfp2] at hfp
      exact absurd hfp (by simp [exceptIsOk])

/-- Spec with the `correlated` key set to `False` and no generator. -/
def c9Spec : ColSpec := { type_ := "string", correlated := some false }

/-- Concrete run: a `correlated: False` text column makes generation fail. -/
theorem c9_correlated_false_raises_witness :
    exceptIsOk (generateSyntheticData (fun _ => none) "t" [("note", c9Spec)] 1
      (fun _ => []) (fun _ => 0)) = false :=
  c9_correlated_false_raises (fun _ => none) "t" [("note", c9Spec)] 1 (fun _ => [])
    (fun _ => 0) "note" c9Spec (by decide) rfl rfl (by decide) (by decide)

theorem genCorrelatedId_mem (parent : String) (ids : IdStore) (e : Ent) (v : Value)
    (e' : Ent) (h : genCorrelatedId parent ids e = .ok (v, e')) : v ∈ ids parent := by
  unfold genCorrelatedId at h
  rcases hc : npChoice (ids parent) (headE e) with _ | w
  · rw [hc] at h
    exact absurd h (by simp)
  · rw [hc] at h
    simp only [Except.ok.injEq, Prod.mk.injEq] at h
    obtain ⟨h1, _⟩ := h
    subst h1
    exact List.get?_mem hc

theorem drawCorrelatedN_mem (parent : String) (ids : IdStore) :
    ∀ (rows : Nat) (e : Ent) (vs : List Value) (e' : Ent),
      drawCorrelatedN parent ids e rows = .ok (vs, e') → ∀ v ∈ vs, v ∈ ids parent := by
  intro rows
  induction rows with
  | zero =>
    intro e vs e' h
    simp only [drawCorrelatedN, Except.ok.injEq, Prod.mk.injEq] at h
    obtain ⟨h1, _⟩ := h
    subst h1
    simp
  | succ r ih =>
    intro e vs e' h
    simp only [drawCorrelatedN] at h
    rcases h1 : genCorrelatedId parent ids e with m | ⟨v, e1⟩
    · rw [h1] at h; exact absurd h (by simp)
    · rw [h1] at h
      simp only at h
      rcases h2 : drawCorrelatedN parent ids e1 r with m | ⟨vs1, e2⟩
      · rw [h2] at h; exact absurd h (by simp)
      · rw [h2] at h
        simp only [Except.ok.injEq, Prod.mk.injEq] at h
        obtain ⟨h3, _⟩ := h
        subst h3
        intro u hu
        rcases List.mem_cons.mp hu with rfl | hu'
        · exact genCorrelatedId_mem parent ids e u e1 h1
        · exact ih e1 vs1 e2 h2 u hu'

/-- C2: correlated columns take their values from the parent table's
recorded IDs.  Conjuncts: (i) `_extract_parent_table` maps `policy_id`,
`customer_id`, `claim_id` to their tables and otherwise strips `_id` and
pluralizes; (ii) every `_generate_correlated_id` result is a member of
`_generated_ids[parent]`; (iii) when the parent has no recorded IDs and no
default schema, `_ensure_parent_table_ids` raises `ValueError`; (iv) for a
column with truthy `correlated`, a successful second-pass step stores,
under the column, values that are all members of `_generated_ids[parent]`
in the state holding at generation time (after
`_ensure_parent_table_ids`). -/
theorem c2_correlated_membership :
    (extractParentTable "policy_id" = .ok "policies" ∧
     extractParentTable "customer_id" = .ok "customers" ∧
     extractParentTable "claim_id" = .ok "claims" ∧
     ∀ c : String, strEndsWith c "_id" = true → c ≠ "policy_id" → c ≠ "customer_id" →
       c ≠ "claim_id" →
       extractParentTable c =
         .ok (if strEndsWith (strDropRight c 3) "s" then strDropRight c 3
              else strDropRight c 3 ++ "s")) ∧
    (∀ (parent : String) (ids : IdStore) (e : Ent) (v : Value) (e' : Ent),
      genCorrelatedId parent ids e = .ok (v, e') → v ∈ ids parent) ∧
    (∀ (defaults : String → Option Schema) (parent : String) (rows : Nat)
        (ids : IdStore) (e : Ent), ids parent = [] → defaults parent = none →
      ensureParentTableIds defaults parent rows ids e =
        .error ("No schema found for parent table " ++ parent)) ∧
    (∀ (defaults : String → Option Schema) (rows : Nat) (colName : String) (spec : ColSpec)
        (data : TableData) (ids : IdStore) (e : Ent)
        (d' : TableData) (ids' : IdStore) (e' : Ent),
      spec.correlated.getD false = true →
      secondPassCol defaults rows colName spec data ids e = .ok (d', ids', e') →
      ∃ parent, extractParentTable colName = .ok parent ∧
        ∃ vs, d'.lookup colName = some vs ∧ ∀ v ∈ vs, v ∈ ids' parent) := by
  refine ⟨⟨by decide, by decide, by decide, ?_⟩, ?_, ?_, ?_⟩
  · intro c hend h1 h2 h3
    unfold extractParentTable
    rw [if_neg h1, if_neg h2, if_neg h3, if_pos hend]
  · exact genCorrelatedId_mem
  · intro defaults parent rows ids e hempty hds
    unfold ensureParentTableIds
    rw [hempty]
    simp [hds]
  · intro defaults rows colName spec data ids e d' ids' e' htr h
    unfold secondPassCol at h
    rw [htr] at h
    simp only [if_true] at h
    rcases hep : extractParentTable colName with m | parent
    · rw [hep] at h; exact absurd h (by simp)
    · rw [hep] at h
      simp only at h
      rcases hen : ensureParentTableIds defaults parent rows ids e with m | ⟨ids1, e1⟩
      · rw [hen] at h; exact absurd h (by simp)
      · rw [hen] at h
        simp only at h
        rcases hdr : drawCorrelatedN parent ids1 e1 rows with m | ⟨vs, e2⟩
        · rw [hdr] at h; exact absurd h (by simp)
        · rw [hdr] at h
          simp only [Except.ok.injEq, Prod.mk.injEq] at h
          obtain ⟨h1, h2, _⟩ := h
          subst h1
          subst h2
          refine ⟨parent, rfl, vs, lookup_dictSet_self data colName vs, ?_⟩
          exact fun v hv => drawCorrelatedN_mem parent ids1 rows e1 vs e2 hdr v hv

/-- Spec of a correlated foreign-key column for concrete runs. -/
def c2Spec : ColSpec := { type_ := "integer", correlated := some true }

/-- Store holding one recorded customer ID for concrete runs. -/
def c2Ids : IdStore := fun t => if t = "customers" then [Value.npInt 7] else []

/-- Concrete runs of the C2 conjuncts. -/
theorem c2_correlated_membership_witness :
    (extractParentTable "order_id" =
      .ok (if strEndsWith (strDropRight "order_id" 3) "s" then strDropRight "order_id" 3
           else strDropRight "order_id" 3 ++ "s")) ∧
    Value.npInt 7 ∈ c2Ids "customers" ∧
    ensureParentTableIds (fun _ => none) "ghosts" 1 (fun _ => []) (fun _ => 0) =
      .error ("No schema found for parent table " ++ "ghosts") ∧
    (∃ parent, extractParentTable "customer_id" = .ok parent ∧
      ∃ vs, (dictSet ([] : TableData) "customer_id" [Value.npInt 7]).lookup "customer_id" =
          some vs ∧ ∀ v ∈ vs, v ∈ c2Ids parent) :=
  ⟨c2_correlated_membership.1.2.2.2 "order_id" (by decide) (by decide) (by decide) (by decide),
   c2_correlated_membership.2.1 "customers" c2Ids (fun _ => 0) (.npInt 7)
      (tailE (fun _ => 0)) (by rfl),
   c2_correlated_membership.2.2.1 (fun _ => none) "ghosts" 1 (fun _ => []) (fun _ => 0)
      rfl rfl,
   c2_correlated_membership.2.2.2 (fun _ => none) 1 "customer_id" c2Spec [] c2Ids
      (fun _ => 0) (dictSet [] "customer_id" [Value.npInt 7]) c2Ids (tailE (fun _ => 0))
      rfl (by rfl)⟩

/-- A well-formed unique-ID column value list: pairwise distinct, each a
bare numpy integer or a prefixed string. -/
def goodIdList (vs : List Value) : Prop := vs.Nodup ∧ ∀ v ∈ vs, isIdShape v

/-- The map `_ensure_json_serializable` is injective on ID-shaped values, so the
final serialization sweep preserves distinctness of an ID column. -/
theorem isIdShape_cases (z : Value) (hz : isIdShape z) :
    (∃ n, z = .npInt n) ∨ (∃ s, z = .pyStr s) := by
  cases z with
  | npInt n => exact Or.inl ⟨n, rfl⟩
  | pyStr s => exact Or.inr ⟨s, rfl⟩
  | npFloat p => exact absurd hz (by simp [isIdShape])
  | npBool b => exact absurd hz (by simp [isIdShape])
  | pyInt n => exact absurd hz (by simp [isIdShape])
  | pyFloat p => exact absurd hz (by simp [isIdShape])
  | pyBool b => exact absurd hz (by simp [isIdShape])
  | pyDate s => exact absurd hz (by simp [isIdShape])
  | pyDatetime s => exact absurd hz (by simp [isIdShape])

theorem goodIdList_map_ensure (vs : List Value) (h : goodIdList vs) :
    (vs.map ensureJsonSerializable).Nodup := by
  refine List.Nodup.map_on ?_ h.1
  intro x hx y hy hxy
  rcases isIdShape_cases x (h.2 x hx) with ⟨a, rfl⟩ | ⟨sa, rfl⟩ <;>
    rcases isIdShape_cases y (h.2 y hy) with ⟨b, rfl⟩ | ⟨sb, rfl⟩
  · simp only [ensureJsonSerializable, Value.pyInt.injEq] at hxy
    rw [hxy]
  · simp [ensureJsonSerializable] at hxy
  · simp [ensureJsonSerializable] at hxy
  · simp only [ensureJsonSerializable, Value.pyStr.injEq] at hxy
    rw [hxy]

theorem lookup_map_snd {α β : Type} (f : α → β) :
    ∀ (d : List (String × α)) (col : String),
      (d.map (fun p => (p.1, f p.2))).lookup col = (d.lookup col).map f := by
  intro d col
  induction d with
  | nil => rfl
  | cons p rest ih =>
    obtain ⟨k, w⟩ := p
    simp only [List.map_cons, List.lookup]
    cases col == k
    · exact ih
    · rfl

/-- Every column the pre-generation step records is a good ID column. -/
theorem preStep_ok_good (defaults : String → Option Schema) (table : String)
    (schema : Schema) (rows : Nat) (ids : IdStore) (e : Ent)
    (d0 : TableData) (i0 : IdStore) (e0 : Ent)
    (h : preStep defaults table schema rows ids e = .ok (d0, i0, e0)) :
    ∀ col vs, d0.lookup col = some vs → goodIdList vs := by
  unfold preStep at h
  split at h
  · simp only [Except.ok.injEq, Prod.mk.injEq] at h
    obtain ⟨h1, _, _⟩ := h
    subst h1
    intro col vs hl
    simp [List.lookup] at hl
  · dsimp only at h
    rcases hl0 : List.lookup (strDropRight table 1 ++ "_id") schema with _ | fspec
    · rw [hl0] at h
      simp only [Except.ok.injEq, Prod.mk.injEq] at h
      obtain ⟨h1, _, _⟩ := h
      subst h1
      intro col vs hl
      simp [List.lookup] at hl
    · rw [hl0] at h
      simp only at h
      rcases hg : genUniqueIds table fspec ids e rows with m | ⟨vs0, ids1, e1⟩
      · rw [hg] at h; exact absurd h (by simp)
      · rw [hg] at h
        simp only [Except.ok.injEq, Prod.mk.injEq] at h
        obtain ⟨h1, _, _⟩ := h
        subst h1
        intro col vs hl
        simp only [dataSet] at hl
        by_cases hc : col = strDropRight table 1 ++ "_id"
        · subst hc
          rw [lookup_dictSet_self] at hl
          obtain ⟨hnd, hmem, _⟩ := genUniqueIds_ok table fspec rows ids e vs0 ids1 e1 hg
          cases hl
          exact ⟨hnd, fun v hv => (hmem v hv).2⟩
        · rw [lookup_dictSet_ne _ _ _ _ hc] at hl
          simp [List.lookup] at hl

/-- A successful first-pass step preserves goodness of all `_id`-named
columns. -/
theorem firstPassCol_good (table : String) (rows : Nat) (c : String) (s : ColSpec)
    (d : TableData) (i : IdStore) (e : Ent) (d1 : TableData) (i1 : IdStore) (e1 : Ent)
    (h : firstPassCol table rows c s d i e = .ok (d1, i1, e1))
    (hd : ∀ col vs, d.lookup col = some vs → strEndsWith col "_id" = true → goodIdList vs) :
    ∀ col vs, d1.lookup col = some vs → strEndsWith col "_id" = true → goodIdList vs := by
  unfold firstPassCol at h
  split at h
  · simp only [Except.ok.injEq, Prod.mk.injEq] at h
    obtain ⟨h1, _, _⟩ := h
    subst h1
    exact hd
  · split at h
    · rcases hg : genUniqueIds table s i e rows with m | ⟨vs0, i1', e1'⟩
      · rw [hg] at h; exact absurd h (by simp)
      · rw [hg] at h
        simp only [Except.ok.injEq, Prod.mk.injEq] at h
        obtain ⟨h1, _, _⟩ := h
        subst h1
        intro col vs hl hend
        simp only [dataSet] at hl
        by_cases hc : col = c
        · subst hc
          rw [lookup_dictSet_self] at hl
          obtain ⟨hnd, hmem, _⟩ := genUniqueIds_ok table s rows i e vs0 i1' e1' hg
          cases hl
          exact ⟨hnd, fun v hv => (hmem v hv).2⟩
        · rw [lookup_dictSet_ne _ _ _ _ hc] at hl
          exact hd col vs hl hend
    · rename_i hskip hcid
      rcases hm : mapTypeToGenerator currentTable c s with m | k
      · rw [hm] at h; exact absurd h (by simp)
      · rw [hm] at h
        simp only at h
        rcases hr : runGenRawN k i e rows with m | ⟨vs0, i1', e1'⟩
        · rw [hr] at h; exact absurd h (by simp)
        · rw [hr] at h
          simp only [Except.ok.injEq, Prod.mk.injEq] at h
          obtain ⟨h1, _, _⟩ := h
          subst h1
          intro col vs hl hend
          simp only [dataSet] at hl
          have hc : col ≠ c := by
            intro hcc
            subst hcc
            rw [hend] at hcid
            exact hcid (by trivial)
          rw [lookup_dictSet_ne _ _ _ _ hc] at hl
          exact hd col vs hl hend

/-- The whole first pass preserves goodness of all `_id`-named columns. -/
theorem firstPass_good (table : String) (rows : Nat) :
    ∀ (l : Schema) (d : TableData) (i : IdStore) (e : Ent)
      (d1 : TableData) (i1 : IdStore) (e1 : Ent),
      firstPass table rows l d i e = .ok (d1, i1, e1) →
      (∀ col vs, d.lookup col = some vs → strEndsWith col "_id" = true → goodIdList vs) →
      ∀ col vs, d1.lookup col = some vs → strEndsWith col "_id" = true → goodIdList vs := by
  intro l
  induction l with
  | nil =>
    intro d i e d1 i1 e1 h hd
    simp only [firstPass, Except.ok.injEq, Prod.mk.injEq] at h
    obtain ⟨h1, _, _⟩ := h
    subst h1
    exact hd
  | cons p rest ih =>
    intro d i e d1 i1 e1 h hd
    obtain ⟨c, s⟩ := p
    simp only [firstPass] at h
    rcases hfc : firstPassCol table rows c s d i e with m | ⟨dm, im, em⟩
    · rw [hfc] at h; exact absurd h (by simp)
    · rw [hfc] at h
      simp only at h
      exact ih dm im em d1 i1 e1 h
        (firstPassCol_good table rows c s d i e dm im em hfc hd)

/-- A second-pass step on a non-truthy column is the identity. -/
theorem secondPassCol_skip (defaults : String → Option Schema) (rows : Nat) (c : String)
    (s : ColSpec) (d : TableData) (i : IdStore) (e : Ent)
    (hs : s.correlated.getD false = false) :
    secondPassCol defaults rows c s d i e = .ok (d, i, e) := by
  unfold secondPassCol
  rw [hs]
  rfl

/-- A successful second-pass step on column `c` leaves every other
column's data entry unchanged. -/
theorem secondPassCol_lookup_other (defaults : String → Option Schema) (rows : Nat)
    (c : String) (s : ColSpec) (d : TableData) (i : IdStore) (e : Ent)
    (d1 : TableData) (i1 : IdStore) (e1 : Ent) (col : String) (hc : col ≠ c)
    (h : secondPassCol defaults rows c s d i e = .ok (d1, i1, e1)) :
    d1.lookup col = d.lookup col := by
  unfold secondPassCol at h
  split at h
  · rcases hep : extractParentTable c with m | parent
    · rw [hep] at h; exact absurd h (by simp)
    · rw [hep] at h
      simp only at h
      rcases hen : ensureParentTableIds defaults parent rows i e with m | ⟨im, em⟩
      · rw [hen] at h; exact absurd h (by simp)
      · rw [hen] at h
        simp only at h
        rcases hdr : drawCorrelatedN parent im em rows with m | ⟨vs, e2⟩
        · rw [hdr] at h; exact absurd h (by simp)
        · rw [hdr] at h
          simp only [Except.ok.injEq, Prod.mk.injEq] at h
          obtain ⟨h1, _, _⟩ := h
          subst h1
          simp only [dataSet]
          exact lookup_dictSet_ne _ _ _ _ hc
  · simp only [Except.ok.injEq, Prod.mk.injEq] at h
    obtain ⟨h1, _, _⟩ := h
    subst h1
    rfl

/-- The second pass never rewrites a column all of whose schema entries
are non-truthy. -/
theorem secondPass_nontruthy_lookup (defaults : String → Option Schema) (rows : Nat) :
    ∀ (l : Schema) (d : TableData) (i : IdStore) (e : Ent)
      (d1 : TableData) (i1 : IdStore) (e1 : Ent),
      secondPass defaults rows l d i e = .ok (d1, i1, e1) →
      ∀ col, (∀ s, (col, s) ∈ l → s.correlated.getD false = false) →
      d1.lookup col = d.lookup col := by
  intro l
  induction l with
  | nil =>
    intro d i e d1 i1 e1 h col _
    simp only [secondPass, Except.ok.injEq, Prod.mk.injEq] at h
    obtain ⟨h1, _, _⟩ := h
    subst h1
    rfl
  | cons p rest ih =>
    intro d i e d1 i1 e1 h col hall
    obtain ⟨c, s⟩ := p
    simp only [secondPass] at h
    rcases hsc : secondPassCol defaults rows c s d i e with m | ⟨dm, im, em⟩
    · rw [hsc] at h; exact absurd h (by simp)
    · rw [hsc] at h
      simp only at h
      have hrest := ih dm im em d1 i1 e1 h col
        (fun s' hs' => hall s' (List.mem_cons_of_mem _ hs'))
      rw [hrest]
      by_cases hcc : col = c
      · subst hcc
        have hskip : s.correlated.getD false = false := hall s (List.mem_cons_self _ _)
        rw [secondPassCol_skip defaults rows col s d i e hskip] at hsc
        simp only [Except.ok.injEq, Prod.mk.injEq] at hsc
        obtain ⟨h1, _, _⟩ := hsc
        subst h1
        rfl
      · exact secondPassCol_lookup_other defaults rows c s d i e dm im em col hcc hsc

/-- In a dict-derived association list (distinct keys) a key determines
its value. -/
theorem keyNodup_mem_unique {α : Type} :
    ∀ (l : List (String × α)) (c : String) (a b : α),
      (l.map Prod.fst).Nodup → (c, a) ∈ l → (c, b) ∈ l → a = b := by
  intro l
  induction l with
  | nil =>
    intro c a b _ ha
    simp at ha
  | cons p rest ih =>
    intro c a b hnd ha hb
    rw [List.map_cons] at hnd
    obtain ⟨hnotin, hndr⟩ := List.nodup_cons.mp hnd
    rcases List.mem_cons.mp ha with ha1 | ha'
    · rcases List.mem_cons.mp hb with hb1 | hb'
      · rw [← ha1] at hb1
        injection hb1 with h1 h2
        exact h2.symm
      · exfalso
        rw [← ha1] at hnotin
        exact hnotin (List.mem_map_of_mem Prod.fst hb' : ((c, b).1 ∈ rest.map Prod.fst))
    · rcases List.mem_cons.mp hb with hb1 | hb'
      · exfalso
        rw [← hb1] at hnotin
        exact hnotin (List.mem_map_of_mem Prod.fst ha' : ((c, a).1 ∈ rest.map Prod.fst))
      · exact ih c a b hndr ha' hb'

/-- C1: unique-ID generation never repeats a value.  Conjuncts: (i) a
successful `_generate_unique_id` call returns a value not yet in the
table's ID set, records it under exactly that table before returning, and
touches no other table; (ii) a sequence of such calls returns pairwise
distinct values, none of which was recorded before the sequence started;
(iii) consequently, in every successful `generate_synthetic_data` result
(with dict-shaped, i.e. key-distinct, schema), every non-correlated column
whose name ends in `_id` holds pairwise distinct values. -/
theorem c1_unique_id_distinct :
    (∀ (table : String) (spec : ColSpec) (ids : IdStore) (e : Ent) (v : Value)
        (ids' : IdStore) (e' : Ent),
      genUniqueId table spec ids e = .ok (v, ids', e') →
      v ∉ ids table ∧ ids' table = v :: ids table ∧ ∀ u, u ≠ table → ids' u = ids u) ∧
    (∀ (table : String) (spec : ColSpec) (rows : Nat) (ids : IdStore) (e : Ent)
        (vs : List Value) (ids' : IdStore) (e' : Ent),
      genUniqueIds table spec ids e rows = .ok (vs, ids', e') →
      vs.Nodup ∧ ∀ v ∈ vs, v ∉ ids table) ∧
    (∀ (defaults : String → Option Schema) (table : String) (schema : Schema) (rows : Nat)
        (ids : IdStore) (e : Ent) (data : TableData) (ids2 : IdStore) (e2 : Ent),
      generateSyntheticData defaults table schema rows ids e = .ok (data, ids2, e2) →
      (schema.map Prod.fst).Nodup →
      ∀ (col : String) (cspec : ColSpec), (col, cspec) ∈ schema →
        cspec.correlated.getD false = false → strEndsWith col "_id" = true →
        ∀ vs, data.lookup col = some vs → vs.Nodup) := by
  refine ⟨?_, ?_, ?_⟩
  · intro table spec ids e v ids' e' h
    obtain ⟨hmem, hset, _⟩ := genUniqueId_ok table spec ids e v ids' e' h
    subst hset
    exact ⟨hmem, setIds_self ids table _, fun u hu => setIds_ne ids table u _ hu⟩
  · intro table spec rows ids e vs ids' e' h
    obtain ⟨hnd, hmem, _⟩ := genUniqueIds_ok table spec rows ids e vs ids' e' h
    exact ⟨hnd, fun v hv => (hmem v hv).1⟩
  · intro defaults table schema rows ids e data ids2 e2 h hkeys col cspec hmem hcorr hend
      vs hl
    unfold generateSyntheticData at h
    rcases hps : preStep defaults table schema rows ids e with m | ⟨d0, i0, e0⟩
    · rw [hps] at h; exact absurd h (by simp)
    · rw [hps] at h
      simp only at h
      rcases hfp : firstPass table rows schema d0 i0 e0 with m | ⟨d1, i1, e1⟩
      · rw [hfp] at h; exact absurd h (by simp)
      · rw [hfp] at h
        simp only at h
        rcases hsp : secondPass defaults rows schema d1 i1 e1 with m | ⟨d2, i2', e2'⟩
        · rw [hsp] at h; exact absurd h (by simp)
        · rw [hsp] at h
          simp only [Except.ok.injEq, Prod.mk.injEq] at h
          obtain ⟨h1, _, _⟩ := h
          subst h1
          rw [lookup_map_snd (fun vs => vs.map ensureJsonSerializable) d2 col] at hl
          rcases hd2 : d2.lookup col with _ | vs2
          · rw [hd2] at hl; exact absurd hl (by simp)
          · rw [hd2] at hl
            have hl2 : some (vs2.map ensureJsonSerializable) = some vs := hl
            cases hl2
            have hall : ∀ s, (col, s) ∈ schema → s.correlated.getD false = false := by
              intro s hs
              rw [keyNodup_mem_unique schema col s cspec hkeys hs hmem]
              exact hcorr
            have hd1 : d1.lookup col = some vs2 := by
              rw [← secondPass_nontruthy_lookup defaults rows schema d1 i1 e1 d2 i2' e2'
                hsp col hall, hd2]
            have hgood0 : ∀ c' vs', d0.lookup c' = some vs' →
                strEndsWith c' "_id" = true → goodIdList vs' :=
              fun c' vs' hlv _ =>
                preStep_ok_good defaults table schema rows ids e d0 i0 e0 hps c' vs' hlv
            have hgood := firstPass_good table rows schema d0 i0 e0 d1 i1 e1 hfp hgood0
              col vs2 hd1 hend
            exact goodIdList_map_ensure vs2 hgood

/-- Integer ID spec with range `[1, 9]` for concrete runs. -/
def c1Spec : ColSpec := { type_ := "integer", min? := some 1, max? := some 9 }

/-- Concrete runs of the C1 conjuncts on a one-row `x_id` column. -/
theorem c1_unique_id_distinct_witness :
    (Value.npInt 1 ∉ (fun _ => ([] : List Value)) "t" ∧
     setIds (fun _ => []) "t" [Value.npInt 1] "t" =
       Value.npInt 1 :: (fun _ => ([] : List Value)) "t" ∧
     ∀ u, u ≠ "t" → setIds (fun _ => []) "t" [Value.npInt 1] u =
       (fun _ => ([] : List Value)) u) ∧
    (([Value.npInt 1] : List Value).Nodup ∧
     ∀ v ∈ ([Value.npInt 1] : List Value), v ∉ (fun _ => ([] : List Value)) "t") ∧
    ([Value.pyInt 1] : List Value).Nodup :=
  ⟨c1_unique_id_distinct.1 "t" c1Spec (fun _ => []) (fun _ => 0) (.npInt 1)
      (setIds (fun _ => []) "t" [Value.npInt 1]) (tailE (fun _ => 0)) (by rfl),
   c1_unique_id_distinct.2.1 "t" c1Spec 1 (fun _ => []) (fun _ => 0) [Value.npInt 1]
      (setIds (fun _ => []) "t" [Value.npInt 1]) (tailE (fun _ => 0)) (by rfl),
   c1_unique_id_distinct.2.2 (fun _ => none) "t" [("x_id", c1Spec)] 1 (fun _ => [])
      (fun _ => 0) [("x_id", [Value.pyInt 1])] (setIds (fun _ => []) "t" [Value.npInt 1])
      (tailE (fun _ => 0)) (by rfl) (by decide) "x_id" c1Spec (by decide) rfl (by decide)
      [Value.pyInt 1] rfl⟩

theorem optMapList_isSome {α β : Type} (f : α → Option β) :
    ∀ l : List α, (∀ a ∈ l, (f a).isSome = true) → ∃ bs, optMapList f l = some bs := by
  intro l
  induction l with
  | nil => intro _; exact ⟨[], rfl⟩
  | cons a l ih =>
    intro h
    obtain ⟨b, hb⟩ := Option.isSome_iff_exists.mp (h a (List.mem_cons_self a l))
    obtain ⟨bs, hbs⟩ := ih (fun x hx => h x (List.mem_cons_of_mem a hx))
    exact ⟨b :: bs, by simp [optMapList, hb, hbs]⟩

theorem jsonValue_isSome (v : Value) (h : isJsonNative v = true) :
    (jsonValue v).isSome = true := by
  cases v <;> simp_all [isJsonNative, jsonValue]

theorem jsonColumn_isSome (vs : List Value) (h : ∀ v ∈ vs, isJsonNative v = true) :
    ∃ s, jsonColumn vs = some s := by
  obtain ⟨l, hl⟩ := optMapList_isSome jsonValue vs (fun v hv => jsonValue_isSome v (h v hv))
  refine ⟨"[" ++ String.intercalate ", " l ++ "]", ?_⟩
  simp [jsonColumn, hl]

theorem jsonTableData_isSome (td : TableData)
    (h : ∀ p ∈ td, ∀ v ∈ p.2, isJsonNative v = true) :
    ∃ s, jsonTableData td = some s := by
  have hmap : ∀ p ∈ td,
      (((jsonColumn p.2).map (fun s => "\x22" ++ p.1 ++ "\x22: " ++ s)).isSome) = true := by
    intro p hp
    obtain ⟨s, hs⟩ := jsonColumn_isSome p.2 (h p hp)
    simp [hs]
  obtain ⟨l, hl⟩ := optMapList_isSome _ td hmap
  refine ⟨"\x7b" ++ String.intercalate ", " l ++ "\x7d", ?_⟩
  simp [jsonTableData, hl]

theorem jsonDumpsTables_isSome (r : List (String × TableData))
    (h : ∀ t ∈ r, ∀ p ∈ t.2, ∀ v ∈ p.2, isJsonNative v = true) :
    ∃ s, jsonDumpsTables r = some s := by
  have hmap : ∀ t ∈ r,
      (((jsonTableData t.2).map (fun s => "\x22" ++ t.1 ++ "\x22: " ++ s)).isSome) = true := by
    intro t ht
    obtain ⟨s, hs⟩ := jsonTableData_isSome t.2 (h t ht)
    simp [hs]
  obtain ⟨l, hl⟩ := optMapList_isSome _ r hmap
  refine ⟨"\x7b\x22tables\x22: " ++ ("\x7b" ++ String.intercalate ", " l ++ "\x7d") ++
    "\x7d", ?_⟩
  simp [jsonDumpsTables, hl]

/-- Every value in a successful `generate_synthetic_data` result is
JSON-native: the final sweep maps `_ensure_json_serializable` over every
stored list. -/
theorem generateSyntheticData_nativity (defaults : String → Option Schema) (table : String)
    (schema : Schema) (rows : Nat) (ids : IdStore) (e : Ent)
    (data : TableData) (ids2 : IdStore) (e2 : Ent)
    (h : generateSyntheticData defaults table schema rows ids e = .ok (data, ids2, e2)) :
    ∀ p ∈ data, ∀ v ∈ p.2, isJsonNative v = true := by
  unfold generateSyntheticData at h
  rcases hps : preStep defaults table schema rows ids e with m | ⟨d0, i0, e0⟩
  · rw [hps] at h; exact absurd h (by simp)
  · rw [hps] at h
    simp only at h
    rcases hfp : firstPass table rows schema d0 i0 e0 with m | ⟨d1, i1, e1⟩
    · rw [hfp] at h; exact absurd h (by simp)
    · rw [hfp] at h
      simp only at h
      rcases hsp : secondPass defaults rows schema d1 i1 e1 with m | ⟨d2, i2', e2'⟩
      · rw [hsp] at h; exact absurd h (by simp)
      · rw [hsp] at h
        simp only [Except.ok.injEq, Prod.mk.injEq] at h
        obtain ⟨h1, _, _⟩ := h
        subst h1
        intro p hp v hv
        obtain ⟨q, _, rfl⟩ := List.mem_map.mp hp
        obtain ⟨u, _, rfl⟩ := List.mem_map.mp hv
        cases u <;> rfl

theorem mem_dictSet {α : Type} (d : List (String × α)) (c : String) (v : α) :
    ∀ x ∈ dictSet d c v, x ∈ d ∨ x = (c, v) := by
  intro x hx
  unfold dictSet at hx
  split at hx
  · obtain ⟨p, hp, hfx⟩ := List.mem_map.mp hx
    by_cases hpc : p.1 = c
    · right
      rw [← hfx, if_pos hpc]
    · left
      rw [← hfx, if_neg hpc]
      exact hp
  · rcases List.mem_append.mp hx with h1 | h1
    · exact Or.inl h1
    · exact Or.inr (by simpa using h1)

/-- Every table the per-table generation loop accumulates holds only
JSON-native values. -/
theorem genTablesLoop_nativity (resolved : List (String × Schema)) (rows : Nat) :
    ∀ (ts : List String) (acc : List (String × TableData)) (ids : IdStore) (e : Ent)
      (r : List (String × TableData)) (ids' : IdStore) (e' : Ent),
      genTablesLoop resolved rows ts acc ids e = .ok (r, ids', e') →
      (∀ t ∈ acc, ∀ p ∈ t.2, ∀ v ∈ p.2, isJsonNative v = true) →
      ∀ t ∈ r, ∀ p ∈ t.2, ∀ v ∈ p.2, isJsonNative v = true := by
  intro ts
  induction ts with
  | nil =>
    intro acc ids e r ids' e' h hacc
    simp only [genTablesLoop, Except.ok.injEq, Prod.mk.injEq] at h
    obtain ⟨h1, _, _⟩ := h
    subst h1
    exact hacc
  | cons t rest ih =>
    intro acc ids e r ids' e' h hacc
    simp only [genTablesLoop] at h
    rcases hg : generateSyntheticData dgDefaultSchemas t ((resolved.lookup t).getD []) rows
        ids e with m | ⟨td, ids1, e1⟩
    · rw [hg] at h; exact absurd h (by simp)
    · rw [hg] at h
      simp only at h
      refine ih (dictSet acc t td) ids1 e1 r ids' e' h ?_
      intro t' ht' p hp v hv
      rcases mem_dictSet acc t td t' ht' with hin | heq
      · exact hacc t' hin p hp v hv
      · subst heq
        exact generateSyntheticData_nativity dgDefaultSchemas t _ rows ids e td ids1 e1 hg
          p hp v hv

/-- Every table of a successful `handle_generate_tables` result holds only
JSON-native values. -/
theorem handleGenerateTables_nativity (args : DatagenArgs) (e : Ent)
    (r : List (String × TableData)) (ids' : IdStore) (e' : Ent)
    (h : handleGenerateTables args e = .ok (r, ids', e')) :
    ∀ t ∈ r, ∀ p ∈ t.2, ∀ v ∈ p.2, isJsonNative v = true := by
  unfold handleGenerateTables at h
  split at h
  · exact absurd h (by simp)
  · rcases hr : resolveSchemas args.schemas args.tables with m | resolved
    · rw [hr] at h; exact absurd h (by simp)
    · rw [hr] at h
      simp only at h
      exact genTablesLoop_nativity resolved args.rows.toNat (orderedTables args.tables) []
        (fun _ => []) e r ids' e' h (by simp)

/-- Every table of a successful `handle_generate_insurance_data` result
holds only JSON-native values. -/
theorem handleGenerateInsuranceData_nativity (rows : Int) (e : Ent)
    (r : List (String × TableData)) (ids' : IdStore) (e' : Ent)
    (h : handleGenerateInsuranceData rows e = .ok (r, ids', e')) :
    ∀ t ∈ r, ∀ p ∈ t.2, ∀ v ∈ p.2, isJsonNative v = true := by
  unfold handleGenerateInsuranceData at h
  split at h
  · exact absurd h (by simp)
  · exact genTablesLoop_nativity _ rows.toNat tableOrder [] (fun _ => []) e r ids' e' h
      (by simp)

/-- C4: datagen tool responses are one serialized `TextContent`.
Conjuncts: (i-v) `_ensure_json_serializable` converts numpy integers and
floats via `.item()`, numpy booleans via `bool()`, and date/datetime
values to ISO strings; (vi) its output is always JSON-native; (vii) every
value in every column of a successful `generate_synthetic_data` result is
JSON-native (the final sweep); (viii)/(ix) a successful
`generate_custom_tables` / `generate_insurance_data` call serializes
(`json.dumps` succeeds on the all-native result) and `call_tool` returns
exactly one `TextContent` whose text is the `jsonDumpsTables` rendering of
`\x7b"tables": result\x7d`. -/
theorem c4_datagen_serialization :
    (∀ n : Int, ensureJsonSerializable (.npInt n) = .pyInt n) ∧
    (∀ p : Nat, ensureJsonSerializable (.npFloat p) = .pyFloat p) ∧
    (∀ b : Bool, ensureJsonSerializable (.npBool b) = .pyBool b) ∧
    (∀ s : String, ensureJsonSerializable (.pyDate s) = .pyStr s) ∧
    (∀ s : String, ensureJsonSerializable (.pyDatetime s) = .pyStr s) ∧
    (∀ v : Value, isJsonNative (ensureJsonSerializable v) = true) ∧
    (∀ (defaults : String → Option Schema) (table : String) (schema : Schema) (rows : Nat)
        (ids : IdStore) (e : Ent) (data : TableData) (ids2 : IdStore) (e2 : Ent),
      generateSyntheticData defaults table schema rows ids e = .ok (data, ids2, e2) →
      ∀ p ∈ data, ∀ v ∈ p.2, isJsonNative v = true) ∧
    (∀ (args : DatagenArgs) (e : Ent) (r : List (String × TableData)) (ids' : IdStore)
        (e' : Ent), handleGenerateTables args e = .ok (r, ids', e') →
      (∀ t ∈ r, ∀ p ∈ t.2, ∀ v ∈ p.2, isJsonNative v = true) ∧
      ∃ s, jsonDumpsTables r = some s ∧
        callToolDatagen "generate_custom_tables" args e = .ok ([⟨s⟩], ids', e')) ∧
    (∀ (args : DatagenArgs) (e : Ent) (r : List (String × TableData)) (ids' : IdStore)
        (e' : Ent), handleGenerateInsuranceData args.rows e = .ok (r, ids', e') →
      (∀ t ∈ r, ∀ p ∈ t.2, ∀ v ∈ p.2, isJsonNative v = true) ∧
      ∃ s, jsonDumpsTables r = some s ∧
        callToolDatagen "generate_insurance_data" args e = .ok ([⟨s⟩], ids', e')) := by
  refine ⟨fun _ => rfl, fun _ => rfl, fun _ => rfl, fun _ => rfl, fun _ => rfl, ?_, ?_, ?_, ?_⟩
  · intro v
    cases v <;> rfl
  · exact generateSyntheticData_nativity
  · intro args e r ids' e' h
    have hnat := handleGenerateTables_nativity args e r ids' e' h
    obtain ⟨s, hs⟩ := jsonDumpsTables_isSome r hnat
    refine ⟨hnat, s, hs, ?_⟩
    unfold callToolDatagen
    rw [if_pos rfl, h]
    simp only
    rw [hs]
  · intro args e r ids' e' h
    have hnat := handleGenerateInsuranceData_nativity args.rows e r ids' e' h
    obtain ⟨s, hs⟩ := jsonDumpsTables_isSome r hnat
    refine ⟨hnat, s, hs, ?_⟩
    unfold callToolDatagen
    rw [if_neg (by decide), if_pos rfl, h]
    simp only
    rw [hs]

/-- Integer ID spec with range `[1, 9]` for the C4 concrete run. -/
def c4Spec : ColSpec := { type_ := "integer", min? := some 1, max? := some 9 }

/-- A one-table custom request for the C4 concrete run. -/
def c4Args : DatagenArgs :=
  { tables := ["ws"], rows := 1,
    schemas := fun t => if t = "ws" then some [("x_id", c4Spec)] else none }

/-- Concrete runs of the C4 conjuncts: a custom one-column request and a
full `generate_insurance_data` request, both at one row. -/
theorem c4_datagen_serialization_witness :
    isJsonNative (ensureJsonSerializable (Value.npInt 3)) = true ∧
    (match handleGenerateTables c4Args (fun _ => 0) with
     | .ok (r, ids', e') =>
        (∀ t ∈ r, ∀ p ∈ t.2, ∀ v ∈ p.2, isJsonNative v = true) ∧
        ∃ s, jsonDumpsTables r = some s ∧
          callToolDatagen "generate_custom_tables" c4Args (fun _ => 0) =
            .ok ([⟨s⟩], ids', e')
     | .error _ => False) ∧
    (match handleGenerateInsuranceData 1 (fun _ => 0) with
     | .ok (r, _, _) => ∀ t ∈ r, ∀ p ∈ t.2, ∀ v ∈ p.2, isJsonNative v = true
     | .error _ => False) := by
  refine ⟨c4_datagen_serialization.2.2.2.2.2.1 (Value.npInt 3), ?_, ?_⟩
  · rcases hh : handleGenerateTables c4Args (fun _ => 0) with m | ⟨r, ids', e'⟩
    · have hok : exceptIsOk (handleGenerateTables c4Args (fun _ => 0)) = true := by decide
      rw [hh] at hok
      exact absurd hok (by simp [exceptIsOk])
    · exact c4_datagen_serialization.2.2.2.2.2.2.2.1 c4Args (fun _ => 0) r ids' e' hh
  · rcases hh : handleGenerateInsuranceData 1 (fun _ => 0) with m | ⟨r, ids', e'⟩
    · have hok : exceptIsOk (handleGenerateInsuranceData 1 (fun _ => 0)) = true := by decide
      rw [hh] at hok
      exact absurd hok (by simp [exceptIsOk])
    · exact (c4_datagen_serialization.2.2.2.2.2.2.2.2 ⟨[], 1, fun _ => none⟩ (fun _ => 0)
        r ids' e' hh).1
